import Mathlib

/-!
Shallow embedding of the settlement & commission distribution engine
(`app/routes/settlements.py` together with the row types of `app/models.py`).

Conventions:
* coin amounts and bps ratios are `Int` (the columns are signed `BigInteger`,
  Python ints are unbounded);
* dates are abstract day numbers (`Int`), timestamps are abstract ticks (`Nat`);
* MySQL `DIV` truncates toward zero, embedded as `Int.tdiv`;
* Python `//` is floor division, embedded as `Int.fdiv`;
* `Int` division `/` in theorem statements is `Int.ediv`, which is the
  mathematical floor whenever the divisor is positive (here always `10000`),
  so `floor(a*b/10000)` is written `(a * b) / 10000`;
* a SQLAlchemy `query(...).filter(...).first()` is `List.find?`, an ORM
  mutation of the row returned by `first()` is `replaceFirst`/`modifyFirst`,
  and a bulk SQL `UPDATE` is `List.map` of a row transformer;
* status columns keep their integer encodings from `models.py`
  (period: 0=OPEN 1=PAYING 2=CLOSED; payable: 0=UNPAID 1=PARTIAL 2=PAID
  3=OVERDUE; payment: 0=SUBMITTED 1=CONFIRMED 2=REJECTED; ban report:
  0=SUBMITTED 1=APPROVED 2=REJECTED; commission funding: 0=UNFUNDED 1=FUNDED).

Only the engine-relevant columns are modelled; purely informational columns
(labels, remarks, audit reviewer ids, file paths) are omitted.  The unlock
step (`app.services.settlement_unlock`, not part of the settlement route
file) is outside the embedded region; the funding cascade is embedded up to
and including the wallet-account upsert, exactly the SQL block shared by
`confirm_settlement_payment` and `apply_settlement_ban_report`.
-/

/-- Row of `settlement_periods` (`SettlementPeriod` in models.py). -/
structure SettlementPeriod where
  periodId : Nat
  periodStart : Int
  periodEnd : Int
  payStart : Int
  payEnd : Int
  coinRate : Int
  hostBps : Int
  l1Bps : Int
  l2Bps : Int
  collectBps : Int
  status : Nat
  isActive : Nat
deriving DecidableEq, Repr

/-- Row of `settlement_referral_snapshot`. -/
structure SettlementReferralSnapshot where
  periodId : Nat
  userId : Nat
  inviterLevel1 : Option Nat
  inviterLevel2 : Option Nat
deriving DecidableEq, Repr

/-- Row of `earning_records` (the aggregation source); `user_id` is nullable. -/
structure EarningRecord where
  userId : Option Nat
  statDate : Int
  coinsTotal : Int
deriving DecidableEq, Repr

/-- Row of `settlement_user_income`. -/
structure SettlementUserIncome where
  periodId : Nat
  userId : Nat
  grossCoins : Int
  selfKeepCoins : Int
  selfPayableCoins : Int
  l1UserId : Option Nat
  l2UserId : Option Nat
  l1CommissionCoins : Int
  l2CommissionCoins : Int
  platformRetainCoins : Int
deriving DecidableEq, Repr

/-- Row of `settlement_user_payable`. -/
structure SettlementUserPayable where
  periodId : Nat
  userId : Nat
  amountDueCoins : Int
  amountPaidCoins : Int
  status : Nat
  firstPaidAt : Option Nat
  paidAt : Option Nat
deriving DecidableEq, Repr

/-- Row of `settlement_payments`. -/
structure SettlementPayment where
  paymentId : Nat
  periodId : Nat
  payerUserId : Nat
  amountCoins : Int
  status : Nat
  confirmedAt : Option Nat
  confirmedBy : Option Nat
  rejectReason : Option String
deriving DecidableEq, Repr

/-- Row of `settlement_commissions`. -/
structure SettlementCommission where
  periodId : Nat
  sourceUserId : Nat
  beneficiaryUserId : Nat
  level : Nat
  amountCoins : Int
  fundingStatus : Nat
  fundedAt : Option Nat
  isUnlocked : Nat
  unlockedAt : Option Nat
deriving DecidableEq, Repr

/-- Row of `wallet_ledger` (append-only). -/
structure WalletLedger where
  userId : Nat
  periodId : Nat
  entryType : String
  deltaAvailableCoins : Int
  deltaLockedCoins : Int
  refSourceUserId : Option Nat
deriving DecidableEq, Repr

/-- Row of `wallet_accounts`. -/
structure WalletAccount where
  userId : Nat
  availableCoins : Int
  lockedCoins : Int
deriving DecidableEq, Repr

/-- Row of `settlement_ban_reports` (engine-relevant columns). -/
structure SettlementBanReport where
  reportId : Nat
  periodId : Nat
  userId : Nat
  bannedCoins : Int
  status : Nat
  isApplied : Nat
  appliedBy : Option Nat
  appliedAt : Option Nat
  deductGrossCoins : Int
  deductSelfKeepCoins : Int
  deductDueCoins : Int
  deductL1CommissionCoins : Int
  deductL2CommissionCoins : Int
  deductPlatformRetainCoins : Int
deriving DecidableEq, Repr

/-- The persistent state the settlement routes read and write. -/
structure SettlementState where
  periods : List SettlementPeriod
  incomes : List SettlementUserIncome
  payables : List SettlementUserPayable
  payments : List SettlementPayment
  commissions : List SettlementCommission
  ledger : List WalletLedger
  accounts : List WalletAccount
  banReports : List SettlementBanReport
deriving DecidableEq, Repr

deriving instance DecidableEq for Except

/-- Replace the first element satisfying `pred` (an ORM mutation of the row
returned by `.first()`). -/
def replaceFirst {α : Type} (l : List α) (pred : α → Bool) (new : α) : List α :=
  match l with
  | [] => []
  | x :: xs => if pred x then new :: xs else x :: replaceFirst xs pred new

/-- Apply `f` to the first element satisfying `pred`. -/
def modifyFirst {α : Type} (l : List α) (pred : α → Bool) (f : α → α) : List α :=
  match l with
  | [] => []
  | x :: xs => if pred x then f x :: xs else x :: modifyFirst xs pred f

/-- Window test of the generation SQL join:
`er.stat_date BETWEEN p.period_start AND p.period_end`. -/
def earningInWindow (p : SettlementPeriod) (r : EarningRecord) : Bool :=
  decide (p.periodStart ≤ r.statDate) && decide (r.statDate ≤ p.periodEnd)

/-- Distinct non-null users with at least one earning record in the period
window (the `GROUP BY er.user_id` with `er.user_id IS NOT NULL`). -/
def genUsers (records : List EarningRecord) (p : SettlementPeriod) : List Nat :=
  ((records.filter fun r => earningInWindow p r && r.userId.isSome).filterMap
    fun r => r.userId).dedup

/-- `SUM(er.coins_total)` for one user over the period window. -/
def grossFor (records : List EarningRecord) (p : SettlementPeriod) (u : Nat) : Int :=
  ((records.filter fun r => earningInWindow p r && r.userId == some u).map
    fun r => r.coinsTotal).sum

/-- Snapshot lookup (`LEFT JOIN settlement_referral_snapshot`). -/
def snapshotFor (snaps : List SettlementReferralSnapshot) (periodId u : Nat) :
    Option SettlementReferralSnapshot :=
  snaps.find? fun sn => sn.periodId == periodId && sn.userId == u

/-- One `settlement_user_income` row as built by the generation SQL of
`generate_settlement_for_period` (lines 375-408): MySQL `DIV 10000` is
`Int.tdiv`, the `CASE WHEN ... IS NULL THEN 0` guards are the matches, and
`platform_retain_coins` is the payable share minus the two commissions. -/
def genIncomeRow (p : SettlementPeriod) (userId : Nat) (gross : Int)
    (l1 l2 : Option Nat) : SettlementUserIncome :=
  let selfKeep := Int.tdiv (gross * p.hostBps) 10000
  let selfPayable := Int.tdiv (gross * p.collectBps) 10000
  let l1Comm := match l1 with
    | none => 0
    | some _ => Int.tdiv (gross * p.l1Bps) 10000
  let l2Comm := match l2 with
    | none => 0
    | some _ => Int.tdiv (gross * p.l2Bps) 10000
  { periodId := p.periodId, userId := userId, grossCoins := gross,
    selfKeepCoins := selfKeep, selfPayableCoins := selfPayable,
    l1UserId := l1, l2UserId := l2,
    l1CommissionCoins := l1Comm, l2CommissionCoins := l2Comm,
    platformRetainCoins := selfPayable - l1Comm - l2Comm }

/-- All `settlement_user_income` rows written by generation for a period. -/
def generateIncomeRows (p : SettlementPeriod) (records : List EarningRecord)
    (snaps : List SettlementReferralSnapshot) : List SettlementUserIncome :=
  (genUsers records p).map fun u =>
    let sn := snapshotFor snaps p.periodId u
    genIncomeRow p u (grossFor records p u)
      (sn.bind fun x => x.inviterLevel1) (sn.bind fun x => x.inviterLevel2)

/-- Payable-side update of `confirm_settlement_payment` (lines 670-691):
add the payment amount, stamp `first_paid_at` once, then derive the status. -/
def applyPaymentToPayable (now : Nat) (late : Bool)
    (payable : SettlementUserPayable) (amountCoins : Int) : SettlementUserPayable :=
  let due := payable.amountDueCoins
  let paidAfter := payable.amountPaidCoins + amountCoins
  let fpa := match payable.firstPaidAt with
    | none => some now
    | some t => some t
  if due ≤ 0 then
    { payable with
      amountPaidCoins := paidAfter, firstPaidAt := fpa, status := 2,
      paidAt := (match payable.paidAt with | none => some now | some t => some t) }
  else if paidAfter ≥ due then
    { payable with
      amountPaidCoins := paidAfter, firstPaidAt := fpa, status := 2,
      paidAt := (match payable.paidAt with | none => some now | some t => some t) }
  else if late then
    { payable with amountPaidCoins := paidAfter, firstPaidAt := fpa, status := 3 }
  else
    { payable with
      amountPaidCoins := paidAfter, firstPaidAt := fpa,
      status := if paidAfter > 0 then 1 else 0 }

/-- Payable-side update of `apply_settlement_ban_report` (lines 1100-1117):
set the new due amount, then derive the status (the late check overrides the
PARTIAL/UNPAID result, exactly as in the source's trailing `if`). -/
def applyBanDueToPayable (now : Nat) (late : Bool)
    (payable : SettlementUserPayable) (newDue : Int) : SettlementUserPayable :=
  let paid := payable.amountPaidCoins
  if newDue ≤ 0 then
    { payable with
      amountDueCoins := newDue, status := 2,
      paidAt := (match payable.paidAt with | none => some now | some t => some t) }
  else if paid ≥ newDue then
    { payable with
      amountDueCoins := newDue, status := 2,
      paidAt := (match payable.paidAt with | none => some now | some t => some t) }
  else
    { payable with
      amountDueCoins := newDue,
      status := if late then 3 else if paid > 0 then 1 else 0 }

/-- Row transformer of the funding `UPDATE settlement_commissions` (shared by
lines 699-711 and 1167-1179): flip a still-UNFUNDED row of the given
(period, source user) to FUNDED with the batch timestamp; leave every other
row untouched. -/
def fundCommissionRow (periodId sourceUserId now : Nat)
    (c : SettlementCommission) : SettlementCommission :=
  if c.periodId = periodId ∧ c.sourceUserId = sourceUserId ∧ c.fundingStatus = 0 then
    { c with fundingStatus := 1, fundedAt := some now }
  else c

/-- Row test of the ledger/account SQL of the cascade:
`funding_status = 1 AND funded_at = :now` for the (period, source user). -/
def fundedAtNowPred (periodId sourceUserId now : Nat)
    (c : SettlementCommission) : Bool :=
  c.periodId == periodId && c.sourceUserId == sourceUserId &&
  c.fundingStatus == 1 && c.fundedAt == some now

/-- Selection used by the ledger/account SQL of the cascade. -/
def fundedAtNow (periodId sourceUserId now : Nat)
    (cs : List SettlementCommission) : List SettlementCommission :=
  cs.filter (fundedAtNowPred periodId sourceUserId now)

/-- A still-UNFUNDED commission row of the given (period, source user): the
`WHERE` clause of the funding `UPDATE`. -/
def unfundedFor (periodId sourceUserId : Nat) (c : SettlementCommission) : Bool :=
  c.periodId == periodId && c.sourceUserId == sourceUserId && c.fundingStatus == 0

/-- Distinct beneficiaries of a commission batch (`GROUP BY beneficiary_user_id`). -/
def batchBeneficiaries (rows : List SettlementCommission) : List Nat :=
  (rows.map fun c => c.beneficiaryUserId).dedup

/-- `SUM(amount_coins)` of a batch for one beneficiary. -/
def beneficiarySum (rows : List SettlementCommission) (b : Nat) : Int :=
  ((rows.filter fun c => c.beneficiaryUserId == b).map fun c => c.amountCoins).sum

/-- One ledger row of the cascade's `INSERT INTO wallet_ledger`: the batch sum
of a beneficiary, locked in, referencing the source user. -/
def cascadeEntry (periodId sourceUserId : Nat)
    (rows : List SettlementCommission) (b : Nat) : WalletLedger :=
  { userId := b, periodId := periodId, entryType := "COMMISSION_LOCKED_IN",
    deltaAvailableCoins := 0, deltaLockedCoins := beneficiarySum rows b,
    refSourceUserId := some sourceUserId }

/-- Ledger rows written by the cascade's `INSERT INTO wallet_ledger ... GROUP BY
beneficiary_user_id`: one COMMISSION_LOCKED_IN entry per distinct beneficiary. -/
def cascadeLedgerEntries (periodId sourceUserId : Nat)
    (rows : List SettlementCommission) : List WalletLedger :=
  (batchBeneficiaries rows).map (cascadeEntry periodId sourceUserId rows)

/-- `INSERT ... ON DUPLICATE KEY UPDATE locked_coins = locked_coins + VALUES(...)`
for a single beneficiary. -/
def upsertLocked (accounts : List WalletAccount) (b : Nat) (amount : Int) :
    List WalletAccount :=
  if accounts.any fun a => a.userId == b then
    accounts.map fun a =>
      if a.userId = b then { a with lockedCoins := a.lockedCoins + amount } else a
  else
    accounts ++ [{ userId := b, availableCoins := 0, lockedCoins := amount }]

/-- Wallet-account upsert of the cascade, one beneficiary at a time. -/
def cascadeUpsertAccounts (accounts : List WalletAccount)
    (rows : List SettlementCommission) : List WalletAccount :=
  (batchBeneficiaries rows).foldl
    (fun acc b => upsertLocked acc b (beneficiarySum rows b)) accounts

/-- The funding cascade (the SQL block shared by `confirm_settlement_payment`
lines 693-757 and `apply_settlement_ban_report` lines 1165-1223): flip the
still-UNFUNDED commissions of the (period, source user) to FUNDED at one
timestamp, append one COMMISSION_LOCKED_IN ledger entry per distinct
beneficiary of the freshly funded rows, and upsert each beneficiary's locked
balance by the same sum.  The subsequent unlock step lives in
`app.services.settlement_unlock` and is outside the embedded region. -/
def fundingCascade (periodId sourceUserId now : Nat) (s : SettlementState) :
    SettlementState :=
  let commissions := s.commissions.map (fundCommissionRow periodId sourceUserId now)
  let rows := fundedAtNow periodId sourceUserId now commissions
  { s with
    commissions := commissions,
    ledger := s.ledger ++ cascadeLedgerEntries periodId sourceUserId rows,
    accounts := cascadeUpsertAccounts s.accounts rows }

/-- State written by the success path of `confirm_settlement_payment` once the
payment, its payable and its period were found and the SUBMITTED guard passed:
mark the payment CONFIRMED, add its amount to the payable, re-derive the
payable status, and run the funding cascade exactly when the payable newly
reaches PAID. -/
def confirmSuccessState (now : Nat) (today : Int) (adminId : Nat)
    (s : SettlementState) (paymentId : Nat) (payment : SettlementPayment)
    (payable : SettlementUserPayable) (period : SettlementPeriod) :
    SettlementState :=
  let prevStatus := payable.status
  let payment2 := { payment with
    status := 1, confirmedAt := some now,
    confirmedBy := some adminId, rejectReason := none }
  let payable2 :=
    applyPaymentToPayable now (decide (today > period.payEnd)) payable
      payment.amountCoins
  let s2 := { s with
    payments := replaceFirst s.payments
      (fun p => p.paymentId == paymentId) payment2,
    payables := replaceFirst s.payables
      (fun pb => pb.periodId == payment.periodId &&
        pb.userId == payment.payerUserId) payable2 }
  if prevStatus ≠ 2 ∧ payable2.status = 2 then
    fundingCascade payment.periodId payment.payerUserId now s2
  else
    s2

/-- `confirm_settlement_payment` (lines 627-795, without the trailing unlock
calls): find the payment, guard the SUBMITTED status, find the matching
payable and period, then write `confirmSuccessState`. -/
def confirmSettlementPayment (now : Nat) (today : Int) (adminId : Nat)
    (s : SettlementState) (paymentId : Nat) : Except String SettlementState :=
  match s.payments.find? (fun p => p.paymentId == paymentId) with
  | none => .error "payment not found"
  | some payment =>
    if payment.status ≠ 0 then .error "payment is not awaiting review" else
    match s.payables.find? (fun pb =>
        pb.periodId == payment.periodId && pb.userId == payment.payerUserId) with
    | none => .error "no matching payable record"
    | some payable =>
      match s.periods.find? (fun p => p.periodId == payment.periodId) with
      | none => .error "settlement period not found"
      | some period =>
        .ok (confirmSuccessState now today adminId s paymentId payment payable period)

/-- Period status filter `status.in_([0, 1])` (OPEN or PAYING). -/
def openOrPaying (p : SettlementPeriod) : Bool :=
  p.status == 0 || p.status == 1

/-- `order_by(period_id.desc()).first()`: the row with the greatest id. -/
def newestPeriod (l : List SettlementPeriod) : Option SettlementPeriod :=
  l.foldl
    (fun acc p =>
      match acc with
      | none => some p
      | some q => if q.periodId < p.periodId then some p else some q)
    none

/-- Join condition of `_get_current_period` step 2: the user has a payable in
that period whose status is not PAID. -/
def hasUnpaidPayable (payables : List SettlementUserPayable) (u periodId : Nat) :
    Bool :=
  payables.any fun pb => pb.userId == u && pb.periodId == periodId && pb.status != 2

/-- `_get_current_period` (lines 107-149): the active period first; then, only
when a user id was supplied, that user's newest OPEN/PAYING period with a
not-PAID payable; finally the newest OPEN/PAYING period. -/
def getCurrentPeriod (periods : List SettlementPeriod)
    (payables : List SettlementUserPayable) (userId : Option Nat) :
    Option SettlementPeriod :=
  match periods.find? (fun p => p.isActive == 1) with
  | some active => some active
  | none =>
    match userId with
    | some u =>
      match newestPeriod (periods.filter fun p =>
          openOrPaying p && hasUnpaidPayable payables u p.periodId) with
      | some unpaid => some unpaid
      | none => newestPeriod (periods.filter openOrPaying)
    | none => newestPeriod (periods.filter openOrPaying)

/-- Request body of `POST /settlement-payments` (`SettlementPaymentCreate`). -/
structure SettlementPaymentCreate where
  periodId : Option Nat
  amountCoins : Int
  method : String
  proofUrl : Option String
deriving DecidableEq, Repr

/-- `create_settlement_payment` (lines 552-595).  With no explicit period id
the target period is `_get_current_period(db)` — called without a user id. -/
def createSettlementPayment (today : Int) (nextPaymentId : Nat)
    (s : SettlementState) (payerUserId : Nat) (data : SettlementPaymentCreate) :
    Except String (SettlementState × SettlementPayment) :=
  let period? := match data.periodId with
    | none => getCurrentPeriod s.periods s.payables none
    | some pid => s.periods.find? (fun p => p.periodId == pid)
  match period? with
  | none => .error "no settlement period available"
  | some period =>
    if today < period.payStart || today > period.payEnd then
      .error "outside the pay window"
    else
      match s.payables.find? (fun pb =>
          pb.periodId == period.periodId && pb.userId == payerUserId) with
      | none => .error "no payable record generated for this period"
      | some payable =>
        let remaining := payable.amountDueCoins - payable.amountPaidCoins
        if remaining ≤ 0 then .error "already paid in full" else
        if data.amountCoins > remaining then .error "amount exceeds remaining due" else
        let payment : SettlementPayment := {
          paymentId := nextPaymentId, periodId := period.periodId,
          payerUserId := payerUserId, amountCoins := data.amountCoins,
          status := 0, confirmedAt := none, confirmedBy := none, rejectReason := none }
        .ok ({ s with payments := s.payments ++ [payment] }, payment)

/-- Request body of `POST /settlement-periods` (`SettlementPeriodCreate`). -/
structure SettlementPeriodCreate where
  periodStart : Int
  periodEnd : Int
  payStart : Int
  payEnd : Int
  coinRate : Int
  hostBps : Int
  l1Bps : Int
  l2Bps : Int
  collectBps : Int
  status : Nat
deriving DecidableEq, Repr

/-- `_validate_period_create` (lines 77-97); `none` means the data passed. -/
def validatePeriodCreate (d : SettlementPeriodCreate) : Option String :=
  if d.periodStart > d.periodEnd then some "period_start after period_end" else
  if d.payStart > d.payEnd then some "pay_start after pay_end" else
  if d.coinRate ≤ 0 then some "coin_rate must be positive" else
  if ¬(0 ≤ d.hostBps ∧ d.hostBps ≤ 10000 ∧ 0 ≤ d.collectBps ∧ d.collectBps ≤ 10000) then
    some "host_bps or collect_bps out of range" else
  if d.hostBps + d.collectBps ≠ 10000 then some "host_bps plus collect_bps must be 10000" else
  if ¬(0 ≤ d.l1Bps ∧ d.l1Bps ≤ 10000 ∧ 0 ≤ d.l2Bps ∧ d.l2Bps ≤ 10000) then
    some "l1_bps or l2_bps out of range" else
  if d.l1Bps + d.l2Bps > d.collectBps then some "l1_bps plus l2_bps exceeds collect_bps" else
  if d.status ≠ 0 ∧ d.status ≠ 1 ∧ d.status ≠ 2 then some "status must be 0, 1 or 2" else
  none

/-- Outcome of `create_settlement_period`: a fresh row (HTTP 201), the
already-existing row for a duplicate window (HTTP 200, no insert), or a
validation rejection (HTTP 400). -/
inductive CreatePeriodResult
  | created (periods : List SettlementPeriod) (p : SettlementPeriod)
  | returnedExisting (p : SettlementPeriod)
  | rejected (msg : String)
deriving DecidableEq, Repr

/-- True exactly on the rejection outcome. -/
def isRejectedCreate : CreatePeriodResult → Bool
  | .rejected _ => true
  | _ => false

/-- `create_settlement_period` (lines 273-328): validate, then look for an
existing period with the same (period_start, period_end); if found, return it
unchanged instead of inserting. -/
def createSettlementPeriod (periods : List SettlementPeriod) (nextId : Nat)
    (d : SettlementPeriodCreate) : CreatePeriodResult :=
  match validatePeriodCreate d with
  | some msg => .rejected msg
  | none =>
    match periods.find? (fun p =>
        p.periodStart == d.periodStart && p.periodEnd == d.periodEnd) with
    | some existing => .returnedExisting existing
    | none =>
      let p : SettlementPeriod := {
        periodId := nextId, periodStart := d.periodStart, periodEnd := d.periodEnd,
        payStart := d.payStart, payEnd := d.payEnd, coinRate := d.coinRate,
        hostBps := d.hostBps, l1Bps := d.l1Bps, l2Bps := d.l2Bps,
        collectBps := d.collectBps, status := d.status, isActive := 0 }
      .created (periods ++ [p]) p

/-- Recomputation of the income row by `apply_settlement_ban_report`
(lines 1059-1098): deduct `min(banned, gross)` from the gross and rebuild
every derived field from the new gross with Python floor division
(`Int.fdiv`); the inviter ids and the presence tests come from the stored
income row. -/
def banRecomputeIncome (period : SettlementPeriod)
    (income : SettlementUserIncome) (banned : Int) : SettlementUserIncome :=
  let oldGross := income.grossCoins
  let deductGross := min banned oldGross
  let newGross := oldGross - deductGross
  let newSelfKeep := Int.fdiv (newGross * period.hostBps) 10000
  let newDue := Int.fdiv (newGross * period.collectBps) 10000
  let newL1 := if income.l1UserId.isSome then Int.fdiv (newGross * period.l1Bps) 10000 else 0
  let newL2 := if income.l2UserId.isSome then Int.fdiv (newGross * period.l2Bps) 10000 else 0
  { income with
    grossCoins := newGross, selfKeepCoins := newSelfKeep,
    selfPayableCoins := newDue, l1CommissionCoins := newL1,
    l2CommissionCoins := newL2, platformRetainCoins := newDue - newL1 - newL2 }

/-- Commission rewrite of `apply_settlement_ban_report` for one level
(lines 1120-1158): update the first matching row's amount, or insert a fresh
UNFUNDED row when none exists and the new amount is positive. -/
def banAdjustCommissionLevel (periodId sourceUserId : Nat)
    (beneficiary : Option Nat) (level : Nat) (newAmount : Int)
    (cs : List SettlementCommission) : List SettlementCommission :=
  match beneficiary with
  | none => cs
  | some b =>
    let pred := fun (c : SettlementCommission) =>
      c.periodId == periodId && c.sourceUserId == sourceUserId &&
      c.beneficiaryUserId == b && c.level == level
    if cs.any pred then
      modifyFirst cs pred (fun c => { c with amountCoins := newAmount })
    else if newAmount > 0 then
      cs ++ [{ periodId := periodId, sourceUserId := sourceUserId,
               beneficiaryUserId := b, level := level, amountCoins := newAmount,
               fundingStatus := 0, fundedAt := none, isUnlocked := 0,
               unlockedAt := none }]
    else cs

/-- Both commission rewrites of the ban application, level 1 then level 2. -/
def banAdjustCommissions (periodId sourceUserId : Nat)
    (income : SettlementUserIncome) (newL1 newL2 : Int)
    (cs : List SettlementCommission) : List SettlementCommission :=
  banAdjustCommissionLevel periodId sourceUserId income.l2UserId 2 newL2
    (banAdjustCommissionLevel periodId sourceUserId income.l1UserId 1 newL1 cs)

/-- The applied ban report: `is_applied` flipped to 1 and the audit deltas
recorded as old-minus-new of every derived income field. -/
def banAppliedReport (now adminId : Nat) (report : SettlementBanReport)
    (income income2 : SettlementUserIncome) : SettlementBanReport :=
  { report with
    deductGrossCoins := income.grossCoins - income2.grossCoins,
    deductSelfKeepCoins := income.selfKeepCoins - income2.selfKeepCoins,
    deductDueCoins := income.selfPayableCoins - income2.selfPayableCoins,
    deductL1CommissionCoins := income.l1CommissionCoins - income2.l1CommissionCoins,
    deductL2CommissionCoins := income.l2CommissionCoins - income2.l2CommissionCoins,
    deductPlatformRetainCoins := income.platformRetainCoins - income2.platformRetainCoins,
    isApplied := 1, appliedBy := some adminId, appliedAt := some now }

/-- State written by the success path of `apply_settlement_ban_report` once
every guard passed: the income recomputation, the payable update, the
commission rewrite, the one-way `is_applied` flip with audit deltas, and the
funding cascade exactly when the payable newly reaches PAID. -/
def banApplySuccessState (now : Nat) (today : Int) (adminId : Nat)
    (s : SettlementState) (reportId : Nat) (report : SettlementBanReport)
    (period : SettlementPeriod) (income : SettlementUserIncome)
    (payable : SettlementUserPayable) : SettlementState :=
  let income2 := banRecomputeIncome period income report.bannedCoins
  let report2 := banAppliedReport now adminId report income income2
  let prevStatus := payable.status
  let payable2 := applyBanDueToPayable now (decide (today > period.payEnd))
    payable income2.selfPayableCoins
  let commissions2 := banAdjustCommissions report.periodId report.userId
    income income2.l1CommissionCoins income2.l2CommissionCoins s.commissions
  let s2 := { s with
    banReports := replaceFirst s.banReports
      (fun r => r.reportId == reportId) report2,
    incomes := replaceFirst s.incomes
      (fun i => i.periodId == report.periodId && i.userId == report.userId)
      income2,
    payables := replaceFirst s.payables
      (fun pb => pb.periodId == report.periodId && pb.userId == report.userId)
      payable2,
    commissions := commissions2 }
  if prevStatus ≠ 2 ∧ payable2.status = 2 then
    fundingCascade report.periodId report.userId now s2
  else
    s2

/-- `apply_settlement_ban_report` (lines 994-1257, without the trailing unlock
calls): all guards in source order, then `banApplySuccessState`. -/
def applySettlementBanReport (now : Nat) (today : Int) (adminId : Nat)
    (s : SettlementState) (reportId : Nat) : Except String SettlementState :=
  match s.banReports.find? (fun r => r.reportId == reportId) with
  | none => .error "ban report not found"
  | some report =>
    if report.status ≠ 1 then .error "only an approved report can be applied" else
    if report.isApplied = 1 then .error "report was already applied" else
    match s.periods.find? (fun p => p.periodId == report.periodId) with
    | none => .error "settlement period not found"
    | some period =>
      if period.status = 2 then .error "period is closed" else
      if s.commissions.any (fun c =>
          c.periodId == report.periodId && c.sourceUserId == report.userId &&
          (c.fundingStatus == 1 || c.isUnlocked == 1)) then
        .error "commissions already funded or unlocked" else
      if s.ledger.any (fun e =>
          e.periodId == report.periodId && e.refSourceUserId == some report.userId) then
        .error "wallet ledger already references this user" else
      match s.incomes.find? (fun i =>
          i.periodId == report.periodId && i.userId == report.userId) with
      | none => .error "income summary not found"
      | some income =>
        match s.payables.find? (fun pb =>
            pb.periodId == report.periodId && pb.userId == report.userId) with
        | none => .error "payable record not found"
        | some payable =>
          if income.grossCoins ≤ 0 then .error "gross is not positive" else
          if report.bannedCoins ≤ 0 then .error "banned_coins must be positive" else
          .ok (banApplySuccessState now today adminId s reportId report period
            income payable)

/-- Balance read-back: `lockedCoins` of the first account row of a user, zero
when the user has no account yet. -/
def lockedOf (accounts : List WalletAccount) (u : Nat) : Int :=
  match accounts.find? (fun a => a.userId == u) with
  | some a => a.lockedCoins
  | none => 0

/-- Balance read-back: `availableCoins` of the first account row of a user. -/
def availOf (accounts : List WalletAccount) (u : Nat) : Int :=
  match accounts.find? (fun a => a.userId == u) with
  | some a => a.availableCoins
  | none => 0

/-- The payable status rule exactly as the spec states it (section 4.4):
PAID when nothing is due or everything is paid, else OVERDUE when past the
pay window, else PARTIAL or UNPAID by whether anything was paid. -/
def payableStatusSpec (due paid : Int) (late : Bool) : Nat :=
  if due ≤ 0 ∨ paid ≥ due then 2
  else if late then 3
  else if paid > 0 then 1
  else 0

/-- Modelled from the claim's words (spec section 4.5): the submit-time period
resolution the claim asserts for the no-active-period case — first the
payer's most recent OPEN/PAYING period with a not-PAID payable, only then the
newest OPEN/PAYING period.  Written for comparison with what
`create_settlement_payment` actually does. -/
def claimSubmitPeriodResolve (periods : List SettlementPeriod)
    (payables : List SettlementUserPayable) (payer : Nat) :
    Option SettlementPeriod :=
  match newestPeriod (periods.filter fun p =>
      openOrPaying p && hasUnpaidPayable payables payer p.periodId) with
  | some unpaid => some unpaid
  | none => newestPeriod (periods.filter openOrPaying)

/-- Scenario A period: host 6000, collect 4000, l1 2000, l2 400 bps. -/
def exampleAPeriod : SettlementPeriod :=
  ⟨1, 0, 30, 31, 40, 10000, 6000, 2000, 400, 4000, 0, 0⟩

/-- Scenario A earnings: user 10 earned 100000 coins inside the window. -/
def exampleARecords : List EarningRecord := [⟨some 10, 5, 100000⟩]

/-- Scenario A snapshot: user 10 has level-1 inviter 21 and level-2 inviter 22. -/
def exampleASnaps : List SettlementReferralSnapshot := [⟨1, 10, some 21, some 22⟩]

/-- The income row generation writes in Scenario A. -/
def exampleARow : SettlementUserIncome :=
  ⟨1, 10, 100000, 60000, 40000, some 21, some 22, 20000, 4000, 16000⟩

/-- A later OPEN period with a disjoint window (for the resolver example). -/
def examplePeriodTwo : SettlementPeriod :=
  ⟨2, 50, 80, 81, 90, 10000, 6000, 2000, 400, 4000, 0, 0⟩

/-- Resolver example: user 7 still owes in period 1 but is PAID in period 2;
no period is marked active. -/
def exampleResolveState : SettlementState :=
  { periods := [exampleAPeriod, examplePeriodTwo], incomes := [],
    payables := [⟨1, 7, 100, 0, 0, none, none⟩, ⟨2, 7, 50, 50, 2, none, none⟩],
    payments := [], commissions := [], ledger := [], accounts := [],
    banReports := [] }

/-- A create request duplicating Scenario A's statistics window. -/
def dupCreateData : SettlementPeriodCreate :=
  ⟨0, 30, 31, 40, 10000, 6000, 2000, 400, 4000, 0⟩

/-- Overpay example: user 7 owes 10, already paid 8, and a SUBMITTED payment
of 5 is waiting (it was within the remaining due when submitted only if the
due was larger then; confirmation does not re-check). -/
def overpayState : SettlementState :=
  { periods := [exampleAPeriod], incomes := [],
    payables := [⟨1, 7, 10, 8, 1, some 90, none⟩],
    payments := [⟨5, 1, 7, 5, 0, none, none, none⟩],
    commissions := [], ledger := [], accounts := [], banReports := [] }

/-- State after confirming payment 5 of `overpayState`: paid 13 exceeds the
due 10 and the payable is PAID. -/
def overpayStateAfter : SettlementState :=
  { periods := [exampleAPeriod], incomes := [],
    payables := [⟨1, 7, 10, 13, 2, some 90, some 100⟩],
    payments := [⟨5, 1, 7, 5, 1, some 100, some 1, none⟩],
    commissions := [], ledger := [], accounts := [], banReports := [] }

/-- Confirmation example with a commission: like `overpayState` but user 7 is
the source of an UNFUNDED 20000-coin commission for beneficiary 21. -/
def exampleConfirmState : SettlementState :=
  { periods := [exampleAPeriod], incomes := [],
    payables := [⟨1, 7, 10, 8, 1, some 90, none⟩],
    payments := [⟨5, 1, 7, 5, 0, none, none, none⟩],
    commissions := [⟨1, 7, 21, 1, 20000, 0, none, 0, none⟩],
    ledger := [], accounts := [], banReports := [] }

/-- State after confirming payment 5 of `exampleConfirmState`: the payable
newly reaches PAID, so the commission is FUNDED and booked. -/
def exampleConfirmAfter : SettlementState :=
  { periods := [exampleAPeriod], incomes := [],
    payables := [⟨1, 7, 10, 13, 2, some 90, some 100⟩],
    payments := [⟨5, 1, 7, 5, 1, some 100, some 1, none⟩],
    commissions := [⟨1, 7, 21, 1, 20000, 1, some 100, 0, none⟩],
    ledger := [⟨21, 1, "COMMISSION_LOCKED_IN", 0, 20000, some 7⟩],
    accounts := [⟨21, 0, 20000⟩], banReports := [] }

/-- Cascade example: two UNFUNDED commissions from source 7, beneficiary 21
already has an account, beneficiary 22 has none. -/
def cascadeExampleState : SettlementState :=
  { periods := [], incomes := [], payables := [], payments := [],
    commissions := [⟨1, 7, 21, 1, 20000, 0, none, 0, none⟩,
                    ⟨1, 7, 22, 2, 4000, 0, none, 0, none⟩],
    ledger := [], accounts := [⟨21, 5, 7⟩], banReports := [] }

/-- Scenario E ban-apply example: approved, unapplied report of 30000 banned
coins for user 10 whose Scenario A income and commissions are unpaid. -/
def banExampleState : SettlementState :=
  { periods := [exampleAPeriod], incomes := [exampleARow],
    payables := [⟨1, 10, 40000, 0, 0, none, none⟩], payments := [],
    commissions := [⟨1, 10, 21, 1, 20000, 0, none, 0, none⟩,
                    ⟨1, 10, 22, 2, 4000, 0, none, 0, none⟩],
    ledger := [], accounts := [],
    banReports := [⟨5, 1, 10, 30000, 1, 0, none, none, 0, 0, 0, 0, 0, 0⟩] }

/-- State after applying report 5 of `banExampleState`: gross 70000, due
28000, commissions rewritten to 14000 and 2800, report applied with audit
deltas. -/
def banExampleAfter : SettlementState :=
  { periods := [exampleAPeriod],
    incomes := [⟨1, 10, 70000, 42000, 28000, some 21, some 22, 14000, 2800, 11200⟩],
    payables := [⟨1, 10, 28000, 0, 0, none, none⟩], payments := [],
    commissions := [⟨1, 10, 21, 1, 14000, 0, none, 0, none⟩,
                    ⟨1, 10, 22, 2, 2800, 0, none, 0, none⟩],
    ledger := [], accounts := [],
    banReports := [⟨5, 1, 10, 30000, 1, 1, some 1, some 100,
                    30000, 18000, 12000, 6000, 1200, 4800⟩] }

/-- Membership in the generated income rows pins the row to its user's
aggregated gross and frozen snapshot inviters. -/
theorem mem_generateIncomeRows {p : SettlementPeriod} {records : List EarningRecord}
    {snaps : List SettlementReferralSnapshot} {row : SettlementUserIncome}
    (hrow : row ∈ generateIncomeRows p records snaps) :
    ∃ u ∈ genUsers records p,
      row = genIncomeRow p u (grossFor records p u)
        ((snapshotFor snaps p.periodId u).bind fun x => x.inviterLevel1)
        ((snapshotFor snaps p.periodId u).bind fun x => x.inviterLevel2) := by
  simp only [generateIncomeRows, List.mem_map] at hrow
  obtain ⟨u, hu, h⟩ := hrow
  exact ⟨u, hu, h.symm⟩

/-- Field reading of `genIncomeRow`: the stored gross. -/
theorem genIncomeRow_gross (p : SettlementPeriod) (u : Nat) (g : Int)
    (l1 l2 : Option Nat) : (genIncomeRow p u g l1 l2).grossCoins = g := rfl

/-- Field reading of `genIncomeRow`: the user id. -/
theorem genIncomeRow_userId (p : SettlementPeriod) (u : Nat) (g : Int)
    (l1 l2 : Option Nat) : (genIncomeRow p u g l1 l2).userId = u := rfl

/-- The self-keep share is the floor split whenever the product is
non-negative (`Int.tdiv` agrees with the floor there). -/
theorem genIncomeRow_selfKeep (p : SettlementPeriod) (u : Nat) (g : Int)
    (l1 l2 : Option Nat) (hg : 0 ≤ g) (hh : 0 ≤ p.hostBps) :
    (genIncomeRow p u g l1 l2).selfKeepCoins = g * p.hostBps / 10000 :=
  Int.tdiv_eq_ediv (mul_nonneg hg hh) (by norm_num)

/-- The self-payable share is the floor split whenever the product is
non-negative. -/
theorem genIncomeRow_selfPayable (p : SettlementPeriod) (u : Nat) (g : Int)
    (l1 l2 : Option Nat) (hg : 0 ≤ g) (hc : 0 ≤ p.collectBps) :
    (genIncomeRow p u g l1 l2).selfPayableCoins = g * p.collectBps / 10000 :=
  Int.tdiv_eq_ediv (mul_nonneg hg hc) (by norm_num)

/-- The level-1 commission is the floor split when the inviter is present and
zero otherwise. -/
theorem genIncomeRow_l1Comm (p : SettlementPeriod) (u : Nat) (g : Int)
    (l1 l2 : Option Nat) (hg : 0 ≤ g) (h1 : 0 ≤ p.l1Bps) :
    (genIncomeRow p u g l1 l2).l1CommissionCoins =
      (if l1.isSome then g * p.l1Bps / 10000 else 0) := by
  cases l1 with
  | none => rfl
  | some v => exact Int.tdiv_eq_ediv (mul_nonneg hg h1) (by norm_num)

/-- The level-2 commission is the floor split when the inviter is present and
zero otherwise. -/
theorem genIncomeRow_l2Comm (p : SettlementPeriod) (u : Nat) (g : Int)
    (l1 l2 : Option Nat) (hg : 0 ≤ g) (h2 : 0 ≤ p.l2Bps) :
    (genIncomeRow p u g l1 l2).l2CommissionCoins =
      (if l2.isSome then g * p.l2Bps / 10000 else 0) := by
  cases l2 with
  | none => rfl
  | some v => exact Int.tdiv_eq_ediv (mul_nonneg hg h2) (by norm_num)

/-- C1: every `UserIncome` row written by generation has `grossCoins` equal to
the user's coin sum over the statistics window, `selfKeepCoins` and
`selfPayableCoins` equal to the floors of `gross * hostBps / 10000` and
`gross * collectBps / 10000`, each commission equal to the corresponding
floor when the snapshot inviter is present and `0` otherwise, and
`platformRetainCoins` equal to `selfPayableCoins` minus both commissions
(`/` here is `Int.ediv`, the floor for the positive divisor `10000`). -/
theorem claim1_generate_split (p : SettlementPeriod) (records : List EarningRecord)
    (snaps : List SettlementReferralSnapshot) (row : SettlementUserIncome)
    (hrow : row ∈ generateIncomeRows p records snaps)
    (hg : 0 ≤ row.grossCoins) (hh : 0 ≤ p.hostBps) (hc : 0 ≤ p.collectBps)
    (h1 : 0 ≤ p.l1Bps) (h2 : 0 ≤ p.l2Bps) :
    row.grossCoins = grossFor records p row.userId ∧
    row.selfKeepCoins = row.grossCoins * p.hostBps / 10000 ∧
    row.selfPayableCoins = row.grossCoins * p.collectBps / 10000 ∧
    row.l1CommissionCoins =
      (if row.l1UserId.isSome then row.grossCoins * p.l1Bps / 10000 else 0) ∧
    row.l2CommissionCoins =
      (if row.l2UserId.isSome then row.grossCoins * p.l2Bps / 10000 else 0) ∧
    row.platformRetainCoins =
      row.selfPayableCoins - row.l1CommissionCoins - row.l2CommissionCoins := by
  obtain ⟨u, hu, rfl⟩ := mem_generateIncomeRows hrow
  have hg' : 0 ≤ grossFor records p u := hg
  exact ⟨rfl, genIncomeRow_selfKeep p u _ _ _ hg' hh,
    genIncomeRow_selfPayable p u _ _ _ hg' hc,
    genIncomeRow_l1Comm p u _ _ _ hg' h1,
    genIncomeRow_l2Comm p u _ _ _ hg' h2, rfl⟩

/-- Scenario A instance of C1: gross 100000 with both inviters present under
host 6000, collect 4000, l1 2000, l2 400 yields the row
(60000, 40000, 20000, 4000, 16000). -/
theorem claim1_generate_split_witness :
    exampleARow ∈ generateIncomeRows exampleAPeriod exampleARecords exampleASnaps ∧
    exampleARow.selfKeepCoins = 60000 ∧ exampleARow.selfPayableCoins = 40000 ∧
    exampleARow.l1CommissionCoins = 20000 ∧ exampleARow.l2CommissionCoins = 4000 ∧
    exampleARow.platformRetainCoins = 16000 ∧
    (exampleARow.grossCoins = grossFor exampleARecords exampleAPeriod exampleARow.userId ∧
     exampleARow.selfKeepCoins = exampleARow.grossCoins * exampleAPeriod.hostBps / 10000 ∧
     exampleARow.selfPayableCoins = exampleARow.grossCoins * exampleAPeriod.collectBps / 10000 ∧
     exampleARow.l1CommissionCoins =
       (if exampleARow.l1UserId.isSome then
         exampleARow.grossCoins * exampleAPeriod.l1Bps / 10000 else 0) ∧
     exampleARow.l2CommissionCoins =
       (if exampleARow.l2UserId.isSome then
         exampleARow.grossCoins * exampleAPeriod.l2Bps / 10000 else 0) ∧
     exampleARow.platformRetainCoins =
       exampleARow.selfPayableCoins - exampleARow.l1CommissionCoins -
         exampleARow.l2CommissionCoins) :=
  ⟨by decide, by decide, by decide, by decide, by decide, by decide,
   claim1_generate_split exampleAPeriod exampleARecords exampleASnaps exampleARow
     (by decide) (by decide) (by decide) (by decide) (by decide) (by decide)⟩

/-- C9: for a generated row with non-negative gross and `hostBps + collectBps
= 10000`, both split shares are non-negative and their sum is the gross or the
gross minus one (each truncating division drops strictly less than one coin
and the two remainders add up to 0 or 10000). -/
theorem claim9_split_bounds (p : SettlementPeriod) (records : List EarningRecord)
    (snaps : List SettlementReferralSnapshot) (row : SettlementUserIncome)
    (hrow : row ∈ generateIncomeRows p records snaps)
    (hg : 0 ≤ row.grossCoins) (hh : 0 ≤ p.hostBps) (hc : 0 ≤ p.collectBps)
    (hsum : p.hostBps + p.collectBps = 10000) :
    0 ≤ row.selfKeepCoins ∧ 0 ≤ row.selfPayableCoins ∧
    row.selfKeepCoins + row.selfPayableCoins ≤ row.grossCoins ∧
    (row.selfKeepCoins + row.selfPayableCoins = row.grossCoins ∨
     row.selfKeepCoins + row.selfPayableCoins = row.grossCoins - 1) := by
  obtain ⟨u, hu, rfl⟩ := mem_generateIncomeRows hrow
  have hg' : 0 ≤ grossFor records p u := hg
  rw [genIncomeRow_gross] at *
  rw [genIncomeRow_selfKeep p u _ _ _ hg' hh, genIncomeRow_selfPayable p u _ _ _ hg' hc]
  have hXY : grossFor records p u * p.hostBps + grossFor records p u * p.collectBps
      = 10000 * grossFor records p u := by
    rw [← mul_add, hsum]; ring
  have hX : 0 ≤ grossFor records p u * p.hostBps := mul_nonneg hg' hh
  have hY : 0 ≤ grossFor records p u * p.collectBps := mul_nonneg hg' hc
  omega

/-- Scenario A instance of C9: 60000 + 40000 = 100000 exactly. -/
theorem claim9_split_bounds_witness :
    (0 ≤ exampleARow.selfKeepCoins ∧ 0 ≤ exampleARow.selfPayableCoins ∧
     exampleARow.selfKeepCoins + exampleARow.selfPayableCoins ≤ exampleARow.grossCoins ∧
     (exampleARow.selfKeepCoins + exampleARow.selfPayableCoins = exampleARow.grossCoins ∨
      exampleARow.selfKeepCoins + exampleARow.selfPayableCoins = exampleARow.grossCoins - 1)) ∧
    exampleARow.selfKeepCoins + exampleARow.selfPayableCoins = 100000 :=
  ⟨claim9_split_bounds exampleAPeriod exampleARecords exampleASnaps exampleARow
     (by decide) (by decide) (by decide) (by decide) (by decide), by decide⟩

/-- Status written by the payable update on confirmation equals the spec's
status rule at the post-payment amounts. -/
theorem applyPaymentToPayable_status (now : Nat) (late : Bool)
    (payable : SettlementUserPayable) (amount : Int) :
    (applyPaymentToPayable now late payable amount).status
      = payableStatusSpec payable.amountDueCoins
          (payable.amountPaidCoins + amount) late := by
  unfold applyPaymentToPayable payableStatusSpec
  by_cases h1 : payable.amountDueCoins ≤ 0
  · simp [h1]
  · by_cases h2 : payable.amountPaidCoins + amount ≥ payable.amountDueCoins
    · simp [h1, h2]
    · by_cases h3 : late <;> simp [h1, h2, h3]

/-- `paidAt` after confirmation is stamped exactly on a transition into PAID
with `paidAt` still unset. -/
theorem applyPaymentToPayable_paidAt (now : Nat) (late : Bool)
    (payable : SettlementUserPayable) (amount : Int) :
    (applyPaymentToPayable now late payable amount).paidAt
      = (if (applyPaymentToPayable now late payable amount).status = 2 ∧
            payable.paidAt = none
         then some now else payable.paidAt) := by
  unfold applyPaymentToPayable
  by_cases h1 : payable.amountDueCoins ≤ 0
  · cases hp : payable.paidAt <;> simp [h1, hp]
  · by_cases h2 : payable.amountPaidCoins + amount ≥ payable.amountDueCoins
    · cases hp : payable.paidAt <;> simp [h1, h2, hp]
    · by_cases h3 : late
      · simp [h1, h2, h3]
      · by_cases h4 : payable.amountPaidCoins + amount > 0 <;> simp [h1, h2, h3, h4]

/-- Status written by the payable update on ban application equals the spec's
status rule at the new due amount. -/
theorem applyBanDueToPayable_status (now : Nat) (late : Bool)
    (payable : SettlementUserPayable) (newDue : Int) :
    (applyBanDueToPayable now late payable newDue).status
      = payableStatusSpec newDue payable.amountPaidCoins late := by
  unfold applyBanDueToPayable payableStatusSpec
  by_cases h1 : newDue ≤ 0
  · simp [h1]
  · by_cases h2 : payable.amountPaidCoins ≥ newDue
    · simp [h1, h2]
    · by_cases h3 : late <;> simp [h1, h2, h3]

/-- `paidAt` after ban application is stamped exactly on a transition into
PAID with `paidAt` still unset. -/
theorem applyBanDueToPayable_paidAt (now : Nat) (late : Bool)
    (payable : SettlementUserPayable) (newDue : Int) :
    (applyBanDueToPayable now late payable newDue).paidAt
      = (if (applyBanDueToPayable now late payable newDue).status = 2 ∧
            payable.paidAt = none
         then some now else payable.paidAt) := by
  unfold applyBanDueToPayable
  by_cases h1 : newDue ≤ 0
  · cases hp : payable.paidAt <;> simp [h1, hp]
  · by_cases h2 : payable.amountPaidCoins ≥ newDue
    · cases hp : payable.paidAt <;> simp [h1, h2, hp]
    · by_cases h3 : late
      · simp [h1, h2, h3]
      · by_cases h4 : payable.amountPaidCoins > 0 <;> simp [h1, h2, h3, h4]

/-- C4: both payable mutations — adding a confirmed payment's amount and
resetting the due after a ban — derive the new status by the spec rule
(PAID when `due ≤ 0` or `paid ≥ due`, else OVERDUE when past the pay window,
else PARTIAL or UNPAID), and `paidAt` is stamped exactly on the transitions
into PAID where it was still unset. -/
theorem claim4_status_rule (payable : SettlementUserPayable) (amount newDue : Int)
    (late : Bool) (now : Nat) :
    ((applyPaymentToPayable now late payable amount).status
        = payableStatusSpec payable.amountDueCoins
            (payable.amountPaidCoins + amount) late ∧
     (applyPaymentToPayable now late payable amount).paidAt
        = (if (applyPaymentToPayable now late payable amount).status = 2 ∧
              payable.paidAt = none
           then some now else payable.paidAt)) ∧
    ((applyBanDueToPayable now late payable newDue).status
        = payableStatusSpec newDue payable.amountPaidCoins late ∧
     (applyBanDueToPayable now late payable newDue).paidAt
        = (if (applyBanDueToPayable now late payable newDue).status = 2 ∧
              payable.paidAt = none
           then some now else payable.paidAt)) :=
  ⟨⟨applyPaymentToPayable_status now late payable amount,
    applyPaymentToPayable_paidAt now late payable amount⟩,
   ⟨applyBanDueToPayable_status now late payable newDue,
    applyBanDueToPayable_paidAt now late payable newDue⟩⟩

/-- C10: confirmation adds the full payment amount to `amountPaidCoins`
unconditionally; the `amount ≤ due − paid` guard exists only in submit
(success of submit implies the bound held); and in the concrete overpay run
the payable ends with paid 13 over a due of 10 and still becomes PAID. -/
theorem claim10_confirm_overpay :
    (∀ (now : Nat) (late : Bool) (pb : SettlementUserPayable) (amt : Int),
      (applyPaymentToPayable now late pb amt).amountPaidCoins
        = pb.amountPaidCoins + amt) ∧
    (∀ (today : Int) (nextId : Nat) (s : SettlementState) (payer : Nat)
        (d : SettlementPaymentCreate) (out : SettlementState × SettlementPayment),
      createSettlementPayment today nextId s payer d = .ok out →
      ∃ (period : SettlementPeriod) (payable : SettlementUserPayable),
        s.payables.find? (fun pb =>
          pb.periodId == period.periodId && pb.userId == payer) = some payable ∧
        out.2.periodId = period.periodId ∧
        d.amountCoins ≤ payable.amountDueCoins - payable.amountPaidCoins) ∧
    confirmSettlementPayment 100 35 1 overpayState 5 = .ok overpayStateAfter ∧
    overpayStateAfter.payables = [⟨1, 7, 10, 13, 2, some 90, some 100⟩] := by
  refine ⟨?_, ?_, by decide, by decide⟩
  · intro now late pb amt
    unfold applyPaymentToPayable
    by_cases h1 : pb.amountDueCoins ≤ 0
    · simp [h1]
    · by_cases h2 : pb.amountPaidCoins + amt ≥ pb.amountDueCoins
      · simp [h1, h2]
      · by_cases h3 : late <;> simp [h1, h2, h3]
  · intro today nextId s payer d out h
    unfold createSettlementPayment at h
    cases hper : (match d.periodId with
      | none => getCurrentPeriod s.periods s.payables none
      | some pid => s.periods.find? (fun p => p.periodId == pid)) with
    | none => rw [hper] at h; exact absurd h (by simp)
    | some period =>
      rw [hper] at h
      simp only at h
      split at h
      · exact absurd h (by simp)
      · cases hpb : s.payables.find? (fun pb =>
            pb.periodId == period.periodId && pb.userId == payer) with
        | none => rw [hpb] at h; exact absurd h (by simp)
        | some payable =>
          rw [hpb] at h
          simp only at h
          split at h
          · exact absurd h (by simp)
          · split at h
            · exact absurd h (by simp)
            · refine ⟨period, payable, hpb, ?_, by omega⟩
              cases h with
              | refl => rfl

/-- C7 counterexample: a create request whose statistics window duplicates the
stored Scenario A period does not fail — it returns the existing period as a
success outcome and inserts nothing. -/
theorem claim7_duplicate_create_counterexample :
    createSettlementPeriod [exampleAPeriod] 2 dupCreateData
      = CreatePeriodResult.returnedExisting exampleAPeriod ∧
    isRejectedCreate (createSettlementPeriod [exampleAPeriod] 2 dupCreateData)
      = false := by
  exact ⟨by decide, by decide⟩

/-- C7 amended: a valid create request whose (statStart, statEnd) pair
duplicates a stored period creates no new period row — but instead of being
rejected it returns the already-existing period as a success response. -/
theorem claim7_duplicate_create (periods : List SettlementPeriod) (nextId : Nat)
    (d : SettlementPeriodCreate) (P : SettlementPeriod)
    (hvalid : validatePeriodCreate d = none)
    (hdup : periods.find? (fun p =>
      p.periodStart == d.periodStart && p.periodEnd == d.periodEnd) = some P) :
    createSettlementPeriod periods nextId d = .returnedExisting P := by
  unfold createSettlementPeriod
  rw [hvalid, hdup]

/-- Witness for the amended C7 at the Scenario A period. -/
theorem claim7_duplicate_create_witness :
    validatePeriodCreate dupCreateData = none ∧
    [exampleAPeriod].find? (fun p =>
      p.periodStart == dupCreateData.periodStart &&
      p.periodEnd == dupCreateData.periodEnd) = some exampleAPeriod ∧
    createSettlementPeriod [exampleAPeriod] 2 dupCreateData
      = .returnedExisting exampleAPeriod :=
  ⟨by decide, by decide,
   claim7_duplicate_create [exampleAPeriod] 2 dupCreateData exampleAPeriod
     (by decide) (by decide)⟩

/-- C8 counterexample: with no active period, user 7 has a not-PAID payable
only in period 1, and the claim's resolution picks period 1 — but submit
resolves period 2, because `create_settlement_payment` calls
`_get_current_period` without a user id, so the unpaid-record preference never
applies there; the submit is then refused as already paid in period 2. -/
theorem claim8_submit_resolution_counterexample :
    claimSubmitPeriodResolve exampleResolveState.periods
      exampleResolveState.payables 7 = some exampleAPeriod ∧
    getCurrentPeriod exampleResolveState.periods
      exampleResolveState.payables none = some examplePeriodTwo ∧
    exampleAPeriod ≠ examplePeriodTwo ∧
    createSettlementPayment 85 9 exampleResolveState 7 ⟨none, 10, "manual", none⟩
      = .error "already paid in full" := by
  exact ⟨by decide, by decide, by decide, by decide⟩

/-- C8 amended: when submit is called without an explicit period id and no
period is marked active, the target period is simply the newest OPEN/PAYING
period — the payer's unpaid-record preference is skipped because submit does
not pass the payer's id to the resolver. -/
theorem claim8_submit_resolution (periods : List SettlementPeriod)
    (payables : List SettlementUserPayable)
    (hactive : ∀ p ∈ periods, p.isActive ≠ 1) :
    getCurrentPeriod periods payables none
      = newestPeriod (periods.filter openOrPaying) := by
  unfold getCurrentPeriod
  have hfind : periods.find? (fun p => p.isActive == 1) = none := by
    apply List.find?_eq_none.mpr
    intro p hp
    simpa using hactive p hp
  rw [hfind]

/-- Witness for the amended C8: the two-period example resolves to period 2. -/
theorem claim8_submit_resolution_witness :
    (∀ p ∈ exampleResolveState.periods, p.isActive ≠ 1) ∧
    getCurrentPeriod exampleResolveState.periods exampleResolveState.payables none
      = newestPeriod (exampleResolveState.periods.filter openOrPaying) ∧
    (newestPeriod (exampleResolveState.periods.filter openOrPaying)).map
      (fun p => p.periodId) = some 2 :=
  ⟨by decide, claim8_submit_resolution _ _ (by decide), by decide⟩

/-- Inversion of a successful payment confirmation: the payment was found and
was SUBMITTED, its payable and period were found, and the result is exactly
the success state. -/
theorem confirmSettlementPayment_ok {now : Nat} {today : Int} {adminId : Nat}
    {s : SettlementState} {paymentId : Nat} {s' : SettlementState}
    (h : confirmSettlementPayment now today adminId s paymentId = .ok s') :
    ∃ payment payable period,
      s.payments.find? (fun p => p.paymentId == paymentId) = some payment ∧
      payment.status = 0 ∧
      s.payables.find? (fun pb => pb.periodId == payment.periodId &&
        pb.userId == payment.payerUserId) = some payable ∧
      s.periods.find? (fun p => p.periodId == payment.periodId) = some period ∧
      s' = confirmSuccessState now today adminId s paymentId payment payable period := by
  unfold confirmSettlementPayment at h
  split at h
  · exact absurd h (by simp)
  · rename_i payment hpay
    split at h
    · exact absurd h (by simp)
    · rename_i hst
      split at h
      · exact absurd h (by simp)
      · rename_i payable hpb
        split at h
        · exact absurd h (by simp)
        · rename_i period hper
          injection h with h'
          exact ⟨payment, payable, period, hpay, not_not.mp hst, hpb, hper, h'.symm⟩

/-- Inversion of a successful ban-report application: every guard held and the
result is exactly the success state. -/
theorem applySettlementBanReport_ok {now : Nat} {today : Int} {adminId : Nat}
    {s : SettlementState} {reportId : Nat} {s' : SettlementState}
    (h : applySettlementBanReport now today adminId s reportId = .ok s') :
    ∃ report period income payable,
      s.banReports.find? (fun r => r.reportId == reportId) = some report ∧
      s.periods.find? (fun p => p.periodId == report.periodId) = some period ∧
      s.incomes.find? (fun i => i.periodId == report.periodId &&
        i.userId == report.userId) = some income ∧
      s.payables.find? (fun pb => pb.periodId == report.periodId &&
        pb.userId == report.userId) = some payable ∧
      report.status = 1 ∧ report.isApplied ≠ 1 ∧ period.status ≠ 2 ∧
      s.commissions.any (fun c => c.periodId == report.periodId &&
        c.sourceUserId == report.userId &&
        (c.fundingStatus == 1 || c.isUnlocked == 1)) = false ∧
      s.ledger.any (fun e => e.periodId == report.periodId &&
        e.refSourceUserId == some report.userId) = false ∧
      0 < income.grossCoins ∧ 0 < report.bannedCoins ∧
      s' = banApplySuccessState now today adminId s reportId report period
        income payable := by
  unfold applySettlementBanReport at h
  split at h
  · exact absurd h (by simp)
  · rename_i report hrep
    split at h
    · exact absurd h (by simp)
    · rename_i hst
      split at h
      · exact absurd h (by simp)
      · rename_i happ
        split at h
        · exact absurd h (by simp)
        · rename_i period hper
          split at h
          · exact absurd h (by simp)
          · rename_i hclosed
            split at h
            · exact absurd h (by simp)
            · rename_i hcomm
              split at h
              · exact absurd h (by simp)
              · rename_i hledger
                split at h
                · exact absurd h (by simp)
                · rename_i income hinc
                  split at h
                  · exact absurd h (by simp)
                  · rename_i payable hpb
                    split at h
                    · exact absurd h (by simp)
                    · rename_i hgross
                      split at h
                      · exact absurd h (by simp)
                      · rename_i hbanned
                        injection h with h'
                        refine ⟨report, period, income, payable, hrep, hper,
                          hinc, hpb, not_not.mp hst, happ, hclosed,
                          ?_, ?_, by omega, by omega, h'.symm⟩
                        · exact Bool.not_eq_true _ ▸ eq_false_of_ne_true hcomm
                        · exact Bool.not_eq_true _ ▸ eq_false_of_ne_true hledger

/-- Commissions after the confirmation success path: flipped by the funding
transformer exactly when the payable newly reaches PAID, untouched otherwise. -/
theorem confirmSuccessState_commissions (now : Nat) (today : Int) (adminId : Nat)
    (s : SettlementState) (paymentId : Nat) (payment : SettlementPayment)
    (payable : SettlementUserPayable) (period : SettlementPeriod) :
    (confirmSuccessState now today adminId s paymentId payment payable
        period).commissions
      = (if payable.status ≠ 2 ∧
            (applyPaymentToPayable now (decide (today > period.payEnd)) payable
              payment.amountCoins).status = 2
         then s.commissions.map
           (fundCommissionRow payment.periodId payment.payerUserId now)
         else s.commissions) := by
  unfold confirmSuccessState fundingCascade
  dsimp only
  split <;> rfl

/-- Ledger after the confirmation success path. -/
theorem confirmSuccessState_ledger (now : Nat) (today : Int) (adminId : Nat)
    (s : SettlementState) (paymentId : Nat) (payment : SettlementPayment)
    (payable : SettlementUserPayable) (period : SettlementPeriod) :
    (confirmSuccessState now today adminId s paymentId payment payable
        period).ledger
      = (if payable.status ≠ 2 ∧
            (applyPaymentToPayable now (decide (today > period.payEnd)) payable
              payment.amountCoins).status = 2
         then (fundingCascade payment.periodId payment.payerUserId now
           { s with
             payments := replaceFirst s.payments
               (fun p => p.paymentId == paymentId)
               { payment with
                 status := 1, confirmedAt := some now,
                 confirmedBy := some adminId, rejectReason := none },
             payables := replaceFirst s.payables
               (fun pb => pb.periodId == payment.periodId &&
                 pb.userId == payment.payerUserId)
               (applyPaymentToPayable now (decide (today > period.payEnd))
                 payable payment.amountCoins) }).ledger
         else s.ledger) := by
  unfold confirmSuccessState
  dsimp only
  split <;> rfl

/-- Commissions after the ban-apply success path: first rewritten to the new
amounts, then flipped by the funding transformer exactly when the payable
newly reaches PAID. -/
theorem banApplySuccessState_commissions (now : Nat) (today : Int) (adminId : Nat)
    (s : SettlementState) (reportId : Nat) (report : SettlementBanReport)
    (period : SettlementPeriod) (income : SettlementUserIncome)
    (payable : SettlementUserPayable) :
    (banApplySuccessState now today adminId s reportId report period income
        payable).commissions
      = (if payable.status ≠ 2 ∧
            (applyBanDueToPayable now (decide (today > period.payEnd)) payable
              (banRecomputeIncome period income report.bannedCoins).selfPayableCoins).status = 2
         then (banAdjustCommissions report.periodId report.userId income
             (banRecomputeIncome period income report.bannedCoins).l1CommissionCoins
             (banRecomputeIncome period income report.bannedCoins).l2CommissionCoins
             s.commissions).map
           (fundCommissionRow report.periodId report.userId now)
         else banAdjustCommissions report.periodId report.userId income
           (banRecomputeIncome period income report.bannedCoins).l1CommissionCoins
           (banRecomputeIncome period income report.bannedCoins).l2CommissionCoins
           s.commissions) := by
  unfold banApplySuccessState fundingCascade
  dsimp only
  split <;> rfl

/-- Ban reports after the ban-apply success path: the found report replaced by
its applied version (the cascade never touches ban reports). -/
theorem banApplySuccessState_banReports (now : Nat) (today : Int) (adminId : Nat)
    (s : SettlementState) (reportId : Nat) (report : SettlementBanReport)
    (period : SettlementPeriod) (income : SettlementUserIncome)
    (payable : SettlementUserPayable) :
    (banApplySuccessState now today adminId s reportId report period income
        payable).banReports
      = replaceFirst s.banReports (fun r => r.reportId == reportId)
          (banAppliedReport now adminId report income
            (banRecomputeIncome period income report.bannedCoins)) := by
  unfold banApplySuccessState fundingCascade
  dsimp only
  split <;> rfl

/-- Incomes after the ban-apply success path: the found row replaced by the
recomputed row (the cascade never touches incomes). -/
theorem banApplySuccessState_incomes (now : Nat) (today : Int) (adminId : Nat)
    (s : SettlementState) (reportId : Nat) (report : SettlementBanReport)
    (period : SettlementPeriod) (income : SettlementUserIncome)
    (payable : SettlementUserPayable) :
    (banApplySuccessState now today adminId s reportId report period income
        payable).incomes
      = replaceFirst s.incomes
          (fun i => i.periodId == report.periodId && i.userId == report.userId)
          (banRecomputeIncome period income report.bannedCoins) := by
  unfold banApplySuccessState fundingCascade
  dsimp only
  split <;> rfl

/-- Payables after the ban-apply success path: the found row replaced by the
updated row (the cascade never touches payables). -/
theorem banApplySuccessState_payables (now : Nat) (today : Int) (adminId : Nat)
    (s : SettlementState) (reportId : Nat) (report : SettlementBanReport)
    (period : SettlementPeriod) (income : SettlementUserIncome)
    (payable : SettlementUserPayable) :
    (banApplySuccessState now today adminId s reportId report period income
        payable).payables
      = replaceFirst s.payables
          (fun pb => pb.periodId == report.periodId && pb.userId == report.userId)
          (applyBanDueToPayable now (decide (today > period.payEnd)) payable
            (banRecomputeIncome period income report.bannedCoins).selfPayableCoins) := by
  unfold banApplySuccessState fundingCascade
  dsimp only
  split <;> rfl

/-- The ban recomputation agrees with the generation split formula at the new
gross: Python floor division and MySQL truncating division coincide because
the new gross is never negative (`min banned gross ≤ gross`). -/
theorem banRecomputeIncome_eq_gen (period : SettlementPeriod)
    (income : SettlementUserIncome) (banned : Int)
    (hpid : income.periodId = period.periodId)
    (hh : 0 ≤ period.hostBps) (hc : 0 ≤ period.collectBps)
    (h1 : 0 ≤ period.l1Bps) (h2 : 0 ≤ period.l2Bps) :
    banRecomputeIncome period income banned
      = genIncomeRow period income.userId
          (income.grossCoins - min banned income.grossCoins)
          income.l1UserId income.l2UserId := by
  have hng : 0 ≤ income.grossCoins - min banned income.grossCoins := by
    have := min_le_right banned income.grossCoins
    omega
  have hdiv : ∀ b : Int, 0 ≤ b →
      Int.fdiv ((income.grossCoins - min banned income.grossCoins) * b) 10000
        = Int.tdiv ((income.grossCoins - min banned income.grossCoins) * b) 10000 := by
    intro b hb
    rw [Int.fdiv_eq_ediv _ (by norm_num),
      Int.tdiv_eq_ediv (mul_nonneg hng hb) (by norm_num)]
  unfold banRecomputeIncome genIncomeRow
  dsimp only
  cases hl1 : income.l1UserId <;> cases hl2 : income.l2UserId <;>
    simp [hl1, hl2, hpid, hdiv period.hostBps hh, hdiv period.collectBps hc,
      hdiv period.l1Bps h1, hdiv period.l2Bps h2]

/-- The payable update of the ban application always stores the new due. -/
theorem applyBanDueToPayable_due (now : Nat) (late : Bool)
    (payable : SettlementUserPayable) (newDue : Int) :
    (applyBanDueToPayable now late payable newDue).amountDueCoins = newDue := by
  unfold applyBanDueToPayable
  by_cases h1 : newDue ≤ 0
  · simp [h1]
  · by_cases h2 : payable.amountPaidCoins ≥ newDue <;> simp [h1, h2]

/-- C6: the ban application recomputes every derived income field from
`newGross = gross − min(bannedCoins, gross)` with exactly the generation
split formula `genIncomeRow` (not by subtracting deltas), and on success the
stored income row is that recomputation while the payable's due becomes its
new `selfPayableCoins`. -/
theorem claim6_ban_recompute :
    (∀ (period : SettlementPeriod) (income : SettlementUserIncome) (banned : Int),
      income.periodId = period.periodId →
      0 ≤ period.hostBps → 0 ≤ period.collectBps →
      0 ≤ period.l1Bps → 0 ≤ period.l2Bps →
      banRecomputeIncome period income banned
        = genIncomeRow period income.userId
            (income.grossCoins - min banned income.grossCoins)
            income.l1UserId income.l2UserId) ∧
    (∀ (now : Nat) (today : Int) (adminId : Nat) (s : SettlementState)
        (reportId : Nat) (s' : SettlementState),
      applySettlementBanReport now today adminId s reportId = .ok s' →
      ∃ report period income payable,
        s.banReports.find? (fun r => r.reportId == reportId) = some report ∧
        s.periods.find? (fun p => p.periodId == report.periodId) = some period ∧
        s.incomes.find? (fun i => i.periodId == report.periodId &&
          i.userId == report.userId) = some income ∧
        s.payables.find? (fun pb => pb.periodId == report.periodId &&
          pb.userId == report.userId) = some payable ∧
        s'.incomes = replaceFirst s.incomes
          (fun i => i.periodId == report.periodId && i.userId == report.userId)
          (banRecomputeIncome period income report.bannedCoins) ∧
        s'.payables = replaceFirst s.payables
          (fun pb => pb.periodId == report.periodId && pb.userId == report.userId)
          (applyBanDueToPayable now (decide (today > period.payEnd)) payable
            (banRecomputeIncome period income report.bannedCoins).selfPayableCoins) ∧
        (applyBanDueToPayable now (decide (today > period.payEnd)) payable
            (banRecomputeIncome period income report.bannedCoins).selfPayableCoins).amountDueCoins
          = (banRecomputeIncome period income report.bannedCoins).selfPayableCoins) := by
  constructor
  · intro period income banned hpid hh hc h1 h2
    exact banRecomputeIncome_eq_gen period income banned hpid hh hc h1 h2
  · intro now today adminId s reportId s' h
    obtain ⟨report, period, income, payable, hrep, hper, hinc, hpb,
      _, _, _, _, _, _, _, hs'⟩ := applySettlementBanReport_ok h
    subst hs'
    exact ⟨report, period, income, payable, hrep, hper, hinc, hpb,
      banApplySuccessState_incomes now today adminId s reportId report period
        income payable,
      banApplySuccessState_payables now today adminId s reportId report period
        income payable,
      applyBanDueToPayable_due now (decide (today > period.payEnd)) payable _⟩

/-- Scenario E instance of C6: gross 100000 reduced by 30000 recomputes to
selfPayable 28000, l1 14000, l2 2800, platformRetain 11200, with due 28000,
matching the generation formula at gross 70000. -/
theorem claim6_ban_recompute_witness :
    banRecomputeIncome exampleAPeriod exampleARow 30000
      = genIncomeRow exampleAPeriod exampleARow.userId
          (exampleARow.grossCoins - min 30000 exampleARow.grossCoins)
          exampleARow.l1UserId exampleARow.l2UserId ∧
    banRecomputeIncome exampleAPeriod exampleARow 30000
      = ⟨1, 10, 70000, 42000, 28000, some 21, some 22, 14000, 2800, 11200⟩ ∧
    (∃ report period income payable,
      banExampleState.banReports.find? (fun r => r.reportId == 5) = some report ∧
      banExampleState.periods.find? (fun p => p.periodId == report.periodId)
        = some period ∧
      banExampleState.incomes.find? (fun i => i.periodId == report.periodId &&
        i.userId == report.userId) = some income ∧
      banExampleState.payables.find? (fun pb => pb.periodId == report.periodId &&
        pb.userId == report.userId) = some payable ∧
      banExampleAfter.incomes = replaceFirst banExampleState.incomes
        (fun i => i.periodId == report.periodId && i.userId == report.userId)
        (banRecomputeIncome period income report.bannedCoins) ∧
      banExampleAfter.payables = replaceFirst banExampleState.payables
        (fun pb => pb.periodId == report.periodId && pb.userId == report.userId)
        (applyBanDueToPayable 100 (decide ((35 : Int) > period.payEnd)) payable
          (banRecomputeIncome period income report.bannedCoins).selfPayableCoins) ∧
      (applyBanDueToPayable 100 (decide ((35 : Int) > period.payEnd)) payable
          (banRecomputeIncome period income report.bannedCoins).selfPayableCoins).amountDueCoins
        = (banRecomputeIncome period income report.bannedCoins).selfPayableCoins) :=
  ⟨claim6_ban_recompute.1 exampleAPeriod exampleARow 30000 (by decide) (by decide)
     (by decide) (by decide) (by decide),
   by decide,
   claim6_ban_recompute.2 100 35 1 banExampleState 5 banExampleAfter (by decide)⟩

/-- Looking up by the same predicate after replacing the first match yields
the replacement, provided the replacement still satisfies the predicate. -/
theorem find?_replaceFirst {α : Type} (l : List α) (pred : α → Bool) (new old : α)
    (hold : l.find? pred = some old) (hnew : pred new = true) :
    (replaceFirst l pred new).find? pred = some new := by
  induction l with
  | nil => simp at hold
  | cons x xs ih =>
    by_cases hx : pred x
    · unfold replaceFirst
      rw [if_pos hx]
      simp [hnew]
    · unfold replaceFirst
      rw [if_neg hx]
      rw [List.find?_cons_of_neg _ hx] at hold
      rw [List.find?_cons_of_neg _ hx]
      exact ih hold

/-- C5: a ban-report application succeeds only when the report is APPROVED,
not yet applied, its period exists and is not CLOSED, no commission of that
(period, user) is FUNDED or unlocked, and no ledger entry references the user
as source for the period; on success `isApplied` flips to 1; when the found
report violates one of the guards the call never succeeds (and an `Except`
error carries no state change); and a second application of the same report is
always rejected. -/
theorem claim5_ban_apply_guarded :
    (∀ (now : Nat) (today : Int) (adminId : Nat) (s : SettlementState)
        (reportId : Nat) (s' : SettlementState),
      applySettlementBanReport now today adminId s reportId = .ok s' →
      ∃ report,
        s.banReports.find? (fun r => r.reportId == reportId) = some report ∧
        report.status = 1 ∧ report.isApplied ≠ 1 ∧
        (∃ period, s.periods.find? (fun p => p.periodId == report.periodId)
          = some period ∧ period.status ≠ 2) ∧
        (∀ c ∈ s.commissions, c.periodId = report.periodId →
          c.sourceUserId = report.userId →
          c.fundingStatus ≠ 1 ∧ c.isUnlocked ≠ 1) ∧
        (∀ e ∈ s.ledger, e.periodId = report.periodId →
          e.refSourceUserId ≠ some report.userId) ∧
        (∃ report2, s'.banReports.find? (fun r => r.reportId == reportId)
          = some report2 ∧ report2.isApplied = 1)) ∧
    (∀ (now : Nat) (today : Int) (adminId : Nat) (s : SettlementState)
        (reportId : Nat) (r : SettlementBanReport),
      s.banReports.find? (fun x => x.reportId == reportId) = some r →
      (r.status ≠ 1 ∨ r.isApplied = 1 ∨
       (∃ period, s.periods.find? (fun p => p.periodId == r.periodId)
          = some period ∧ period.status = 2) ∨
       (∃ c ∈ s.commissions, c.periodId = r.periodId ∧
          c.sourceUserId = r.userId ∧ (c.fundingStatus = 1 ∨ c.isUnlocked = 1)) ∨
       (∃ e ∈ s.ledger, e.periodId = r.periodId ∧
          e.refSourceUserId = some r.userId)) →
      ∀ s', applySettlementBanReport now today adminId s reportId ≠ .ok s') ∧
    (∀ (now : Nat) (today : Int) (adminId : Nat) (s : SettlementState)
        (reportId : Nat) (s' : SettlementState),
      applySettlementBanReport now today adminId s reportId = .ok s' →
      ∀ (now2 : Nat) (today2 : Int) (adminId2 : Nat) (s'' : SettlementState),
        applySettlementBanReport now2 today2 adminId2 s' reportId ≠ .ok s'') := by
  have key : ∀ (now : Nat) (today : Int) (adminId : Nat) (s : SettlementState)
      (reportId : Nat) (s' : SettlementState),
      applySettlementBanReport now today adminId s reportId = .ok s' →
      ∃ report period income,
        s.banReports.find? (fun r => r.reportId == reportId) = some report ∧
        s'.banReports.find? (fun r => r.reportId == reportId)
          = some (banAppliedReport now adminId report income
              (banRecomputeIncome period income report.bannedCoins)) := by
    intro now today adminId s reportId s' h
    obtain ⟨report, period, income, payable, hrep, hper, hinc, hpb,
      hst, happ, hclosed, hcomm, hledg, hg, hb, hs'⟩ := applySettlementBanReport_ok h
    refine ⟨report, period, income, hrep, ?_⟩
    subst hs'
    rw [banApplySuccessState_banReports]
    have hpred0 := List.find?_some hrep
    have hpred : (banAppliedReport now adminId report income
        (banRecomputeIncome period income report.bannedCoins)).reportId
          == reportId := hpred0
    exact find?_replaceFirst _ _ _ _ hrep hpred
  refine ⟨?_, ?_, ?_⟩
  · intro now today adminId s reportId s' h
    obtain ⟨report, period, income, payable, hrep, hper, hinc, hpb,
      hst, happ, hclosed, hcomm, hledg, hg, hb, hs'⟩ := applySettlementBanReport_ok h
    refine ⟨report, hrep, hst, happ, ⟨period, hper, hclosed⟩, ?_, ?_, ?_⟩
    · intro c hc hcp hcs
      have hx := (List.any_eq_false.mp hcomm) c hc
      simp [hcp, hcs] at hx
      exact ⟨hx.1, hx.2⟩
    · intro e he hep
      have hx := (List.any_eq_false.mp hledg) e he
      simp [hep] at hx
      exact hx
    · obtain ⟨report', period', income', hrep', hfind2⟩ :=
        key now today adminId s reportId s' h
      rw [hrep] at hrep'
      cases Option.some.inj hrep'
      exact ⟨_, hfind2, rfl⟩
  · intro now today adminId s reportId r hr hviol s' hok
    obtain ⟨report, period, income, payable, hrep, hper, hinc, hpb,
      hst, happ, hclosed, hcomm, hledg, hg, hb, hs'⟩ := applySettlementBanReport_ok hok
    rw [hr] at hrep
    cases Option.some.inj hrep
    rcases hviol with h1 | h1 | ⟨period2, hper2, hcl2⟩ |
      ⟨c, hc, hcp, hcs, hfu⟩ | ⟨e, he, hep, hes⟩
    · exact h1 hst
    · exact happ h1
    · rw [hper] at hper2
      cases Option.some.inj hper2
      exact hclosed hcl2
    · have hx := (List.any_eq_false.mp hcomm) c hc
      simp [hcp, hcs] at hx
      rcases hfu with h1 | h1
      · exact hx.1 h1
      · exact hx.2 h1
    · have hx := (List.any_eq_false.mp hledg) e he
      simp [hep] at hx
      exact hx hes
  · intro now today adminId s reportId s' h now2 today2 adminId2 s'' hok2
    obtain ⟨report', period', income', hrep', hfind2⟩ :=
      key now today adminId s reportId s' h
    obtain ⟨report2, period2, income2, payable2, hrep2, hper2, hinc2, hpb2,
      hst2, happ2, hclosed2, hcomm2, hledg2, hg2, hb2, hs''⟩ :=
      applySettlementBanReport_ok hok2
    rw [hfind2] at hrep2
    cases Option.some.inj hrep2
    exact happ2 rfl

/-- Concrete C5 instance: applying approved report 5 succeeds, flips
`isApplied` to 1, and a second application of the same report is rejected. -/
theorem claim5_ban_apply_guarded_witness :
    applySettlementBanReport 100 35 1 banExampleState 5 = .ok banExampleAfter ∧
    (∃ report,
      banExampleState.banReports.find? (fun r => r.reportId == 5) = some report ∧
      report.status = 1 ∧ report.isApplied ≠ 1 ∧
      (∃ period, banExampleState.periods.find?
          (fun p => p.periodId == report.periodId) = some period ∧
        period.status ≠ 2) ∧
      (∀ c ∈ banExampleState.commissions, c.periodId = report.periodId →
        c.sourceUserId = report.userId →
        c.fundingStatus ≠ 1 ∧ c.isUnlocked ≠ 1) ∧
      (∀ e ∈ banExampleState.ledger, e.periodId = report.periodId →
        e.refSourceUserId ≠ some report.userId) ∧
      (∃ report2, banExampleAfter.banReports.find? (fun r => r.reportId == 5)
        = some report2 ∧ report2.isApplied = 1)) ∧
    applySettlementBanReport 100 35 1 banExampleAfter 5
      = .error "report was already applied" :=
  ⟨by decide,
   claim5_ban_apply_guarded.1 100 35 1 banExampleState 5 banExampleAfter (by decide),
   by decide⟩

/-- C2: on a successful confirmation of a SUBMITTED payment the commission
table is mapped through the funding transformer exactly when the payable
transition newly reaches PAID (`prev ≠ PAID` and `new = PAID`) and is left
untouched otherwise; the same trigger governs the ban application (acting on
the rewritten commission amounts); and the transformer flips precisely the
still-UNFUNDED rows of the (period, source user) to FUNDED with the single
batch timestamp, leaving every other row — in particular the already FUNDED
ones — unchanged. -/
theorem claim2_funding_trigger :
    (∀ (now : Nat) (today : Int) (adminId : Nat) (s : SettlementState)
        (paymentId : Nat) (s' : SettlementState),
      confirmSettlementPayment now today adminId s paymentId = .ok s' →
      ∃ payment payable period,
        s.payments.find? (fun p => p.paymentId == paymentId) = some payment ∧
        payment.status = 0 ∧
        s.payables.find? (fun pb => pb.periodId == payment.periodId &&
          pb.userId == payment.payerUserId) = some payable ∧
        s.periods.find? (fun p => p.periodId == payment.periodId) = some period ∧
        ((payable.status ≠ 2 ∧
            (applyPaymentToPayable now (decide (today > period.payEnd)) payable
              payment.amountCoins).status = 2) →
          s'.commissions = s.commissions.map
            (fundCommissionRow payment.periodId payment.payerUserId now)) ∧
        (¬(payable.status ≠ 2 ∧
            (applyPaymentToPayable now (decide (today > period.payEnd)) payable
              payment.amountCoins).status = 2) →
          s'.commissions = s.commissions)) ∧
    (∀ (now : Nat) (today : Int) (adminId : Nat) (s : SettlementState)
        (reportId : Nat) (s' : SettlementState),
      applySettlementBanReport now today adminId s reportId = .ok s' →
      ∃ report period income payable,
        s.banReports.find? (fun r => r.reportId == reportId) = some report ∧
        s.periods.find? (fun p => p.periodId == report.periodId) = some period ∧
        s.incomes.find? (fun i => i.periodId == report.periodId &&
          i.userId == report.userId) = some income ∧
        s.payables.find? (fun pb => pb.periodId == report.periodId &&
          pb.userId == report.userId) = some payable ∧
        ((payable.status ≠ 2 ∧
            (applyBanDueToPayable now (decide (today > period.payEnd)) payable
              (banRecomputeIncome period income
                report.bannedCoins).selfPayableCoins).status = 2) →
          s'.commissions = (banAdjustCommissions report.periodId report.userId
              income
              (banRecomputeIncome period income report.bannedCoins).l1CommissionCoins
              (banRecomputeIncome period income report.bannedCoins).l2CommissionCoins
              s.commissions).map
            (fundCommissionRow report.periodId report.userId now)) ∧
        (¬(payable.status ≠ 2 ∧
            (applyBanDueToPayable now (decide (today > period.payEnd)) payable
              (banRecomputeIncome period income
                report.bannedCoins).selfPayableCoins).status = 2) →
          s'.commissions = banAdjustCommissions report.periodId report.userId
            income
            (banRecomputeIncome period income report.bannedCoins).l1CommissionCoins
            (banRecomputeIncome period income report.bannedCoins).l2CommissionCoins
            s.commissions)) ∧
    (∀ (periodId sourceUserId now : Nat) (c : SettlementCommission),
      ((c.periodId = periodId ∧ c.sourceUserId = sourceUserId ∧
          c.fundingStatus = 0) →
        fundCommissionRow periodId sourceUserId now c
          = { c with fundingStatus := 1, fundedAt := some now }) ∧
      (¬(c.periodId = periodId ∧ c.sourceUserId = sourceUserId ∧
          c.fundingStatus = 0) →
        fundCommissionRow periodId sourceUserId now c = c)) := by
  refine ⟨?_, ?_, ?_⟩
  · intro now today adminId s paymentId s' h
    obtain ⟨payment, payable, period, hpay, hst, hpb, hper, hs'⟩ :=
      confirmSettlementPayment_ok h
    subst hs'
    refine ⟨payment, payable, period, hpay, hst, hpb, hper, ?_, ?_⟩
    · intro hjp
      rw [confirmSuccessState_commissions, if_pos hjp]
    · intro hjp
      rw [confirmSuccessState_commissions, if_neg hjp]
  · intro now today adminId s reportId s' h
    obtain ⟨report, period, income, payable, hrep, hper, hinc, hpb,
      _, _, _, _, _, _, _, hs'⟩ := applySettlementBanReport_ok h
    subst hs'
    refine ⟨report, period, income, payable, hrep, hper, hinc, hpb, ?_, ?_⟩
    · intro hjp
      rw [banApplySuccessState_commissions, if_pos hjp]
    · intro hjp
      rw [banApplySuccessState_commissions, if_neg hjp]
  · intro periodId sourceUserId now c
    constructor
    · intro hm
      unfold fundCommissionRow
      rw [if_pos hm]
    · intro hm
      unfold fundCommissionRow
      rw [if_neg hm]

/-- Concrete C2 instance: confirming payment 5 newly pays the payable off, and
the commission table is exactly the funding image of the old one. -/
theorem claim2_funding_trigger_witness :
    confirmSettlementPayment 100 35 1 exampleConfirmState 5
      = .ok exampleConfirmAfter ∧
    (∃ payment payable period,
      exampleConfirmState.payments.find? (fun p => p.paymentId == 5)
        = some payment ∧
      payment.status = 0 ∧
      exampleConfirmState.payables.find? (fun pb =>
        pb.periodId == payment.periodId && pb.userId == payment.payerUserId)
        = some payable ∧
      exampleConfirmState.periods.find? (fun p => p.periodId == payment.periodId)
        = some period ∧
      ((payable.status ≠ 2 ∧
          (applyPaymentToPayable 100 (decide ((35 : Int) > period.payEnd)) payable
            payment.amountCoins).status = 2) →
        exampleConfirmAfter.commissions = exampleConfirmState.commissions.map
          (fundCommissionRow payment.periodId payment.payerUserId 100)) ∧
      (¬(payable.status ≠ 2 ∧
          (applyPaymentToPayable 100 (decide ((35 : Int) > period.payEnd)) payable
            payment.amountCoins).status = 2) →
        exampleConfirmAfter.commissions = exampleConfirmState.commissions)) ∧
    exampleConfirmAfter.commissions
      = [⟨1, 7, 21, 1, 20000, 1, some 100, 0, none⟩] :=
  ⟨by decide,
   claim2_funding_trigger.1 100 35 1 exampleConfirmState 5 exampleConfirmAfter
     (by decide),
   by decide⟩

/-- The funding transformer on a matching row. -/
theorem fundCommissionRow_pos (pid uid now : Nat) (c : SettlementCommission)
    (hm : c.periodId = pid ∧ c.sourceUserId = uid ∧ c.fundingStatus = 0) :
    fundCommissionRow pid uid now c
      = { c with fundingStatus := 1, fundedAt := some now } := by
  unfold fundCommissionRow
  rw [if_pos hm]

/-- The funding transformer on a non-matching row. -/
theorem fundCommissionRow_neg (pid uid now : Nat) (c : SettlementCommission)
    (hm : ¬(c.periodId = pid ∧ c.sourceUserId = uid ∧ c.fundingStatus = 0)) :
    fundCommissionRow pid uid now c = c := by
  unfold fundCommissionRow
  rw [if_neg hm]

/-- The funding transformer never changes the beneficiary. -/
theorem fundCommissionRow_beneficiary (pid uid now : Nat)
    (c : SettlementCommission) :
    (fundCommissionRow pid uid now c).beneficiaryUserId = c.beneficiaryUserId := by
  unfold fundCommissionRow
  split <;> rfl

/-- The funding transformer never changes the amount. -/
theorem fundCommissionRow_amount (pid uid now : Nat) (c : SettlementCommission) :
    (fundCommissionRow pid uid now c).amountCoins = c.amountCoins := by
  unfold fundCommissionRow
  split <;> rfl


/-- A freshly flipped matching row passes the batch selection. -/
theorem fundedAtNowPred_flip_pos (pid uid now : Nat) (c : SettlementCommission)
    (hm : c.periodId = pid ∧ c.sourceUserId = uid ∧ c.fundingStatus = 0) :
    fundedAtNowPred pid uid now (fundCommissionRow pid uid now c) = true := by
  rw [fundCommissionRow_pos pid uid now c hm]
  unfold fundedAtNowPred
  simp [hm.1, hm.2.1]

/-- An untouched row with a different timestamp fails the batch selection. -/
theorem fundedAtNowPred_flip_neg (pid uid now : Nat) (c : SettlementCommission)
    (hm : ¬(c.periodId = pid ∧ c.sourceUserId = uid ∧ c.fundingStatus = 0))
    (hfr : c.fundedAt ≠ some now) :
    fundedAtNowPred pid uid now (fundCommissionRow pid uid now c) = false := by
  rw [fundCommissionRow_neg pid uid now c hm]
  unfold fundedAtNowPred
  simp [hfr]

/-- A matching row passes the UNFUNDED test. -/
theorem unfundedFor_pos (pid uid : Nat) (c : SettlementCommission)
    (hm : c.periodId = pid ∧ c.sourceUserId = uid ∧ c.fundingStatus = 0) :
    unfundedFor pid uid c = true := by
  unfold unfundedFor
  simp [hm.1, hm.2.1, hm.2.2]

/-- A non-matching row fails the UNFUNDED test. -/
theorem unfundedFor_neg (pid uid : Nat) (c : SettlementCommission)
    (hm : ¬(c.periodId = pid ∧ c.sourceUserId = uid ∧ c.fundingStatus = 0)) :
    unfundedFor pid uid c = false := by
  unfold unfundedFor
  rw [Bool.eq_false_iff]
  intro hx
  simp only [Bool.and_eq_true, beq_iff_eq] at hx
  exact hm ⟨hx.1.1, hx.1.2, hx.2⟩

/-- When the batch timestamp is fresh, the rows selected by
`funded_at = :now` after the flip are exactly the images of the rows that were
still UNFUNDED for the (period, source user) before it. -/
theorem fundedAtNow_map_flip (pid uid now : Nat) (cs : List SettlementCommission)
    (hfresh : ∀ c ∈ cs, c.fundedAt ≠ some now) :
    fundedAtNow pid uid now (cs.map (fundCommissionRow pid uid now))
      = (cs.filter (unfundedFor pid uid)).map (fundCommissionRow pid uid now) := by
  induction cs with
  | nil => rfl
  | cons c cs ih =>
    have hfr : c.fundedAt ≠ some now := hfresh c (List.mem_cons_self c cs)
    have hrest : ∀ x ∈ cs, x.fundedAt ≠ some now :=
      fun x hx => hfresh x (List.mem_cons_of_mem c hx)
    unfold fundedAtNow at ih ⊢
    rw [List.map_cons, List.filter_cons, List.filter_cons]
    by_cases hm : c.periodId = pid ∧ c.sourceUserId = uid ∧ c.fundingStatus = 0
    · rw [fundedAtNowPred_flip_pos pid uid now c hm, unfundedFor_pos pid uid c hm]
      rw [if_pos rfl, if_pos rfl, List.map_cons, ih hrest]
    · rw [fundedAtNowPred_flip_neg pid uid now c hm hfr, unfundedFor_neg pid uid c hm]
      rw [if_neg (by simp), if_neg (by simp), ih hrest]

/-- The beneficiaries of a batch are unchanged by the flip. -/
theorem batchBeneficiaries_map_flip (pid uid now : Nat)
    (rows : List SettlementCommission) :
    batchBeneficiaries (rows.map (fundCommissionRow pid uid now))
      = batchBeneficiaries rows := by
  unfold batchBeneficiaries
  rw [List.map_map]
  congr 1
  exact List.map_congr_left fun c _ => fundCommissionRow_beneficiary pid uid now c

/-- Per-beneficiary sums of a batch are unchanged by the flip. -/
theorem beneficiarySum_map_flip (pid uid now : Nat)
    (rows : List SettlementCommission) (b : Nat) :
    beneficiarySum (rows.map (fundCommissionRow pid uid now)) b
      = beneficiarySum rows b := by
  unfold beneficiarySum
  induction rows with
  | nil => rfl
  | cons c cs ih =>
    rw [List.map_cons, List.filter_cons, List.filter_cons]
    have hb : ((fundCommissionRow pid uid now c).beneficiaryUserId == b)
        = (c.beneficiaryUserId == b) := by
      rw [fundCommissionRow_beneficiary]
    rw [hb]
    by_cases hc : (c.beneficiaryUserId == b) = true
    · rw [if_pos hc, if_pos hc, List.map_cons, List.map_cons, List.sum_cons,
        List.sum_cons, fundCommissionRow_amount, ih]
    · rw [if_neg (by simp at hc ⊢; exact hc), if_neg (by simp at hc ⊢; exact hc), ih]

/-- In a duplicate-free list, filtering for one contained element keeps
exactly that element. -/
theorem filter_beq_of_nodup {l : List Nat} {b : Nat} (hn : l.Nodup) (hb : b ∈ l) :
    l.filter (fun x => x == b) = [b] := by
  induction l with
  | nil => cases hb
  | cons x xs ih =>
    rw [List.filter_cons]
    rcases List.mem_cons.mp hb with heq | hbx
    · subst heq
      rw [if_pos (by simp)]
      have hnot : ∀ y ∈ xs, ¬((fun x => x == b) y = true) := by
        intro y hy hyb
        simp only [beq_iff_eq] at hyb
        subst hyb
        exact (List.nodup_cons.mp hn).1 hy
      rw [List.filter_eq_nil_iff.mpr hnot]
    · have hx : ¬((x == b) = true) := by
        simp only [beq_iff_eq]
        intro he
        subst he
        exact (List.nodup_cons.mp hn).1 hbx
      rw [if_neg (by simpa using hx)]
      exact ih (List.nodup_cons.mp hn).2 hbx

/-- Filtering the cascade's ledger rows by one user keeps the entries built
from the matching beneficiaries. -/
theorem cascadeLedgerEntries_filter (pid uid : Nat)
    (rows : List SettlementCommission) (b : Nat) :
    (cascadeLedgerEntries pid uid rows).filter (fun e => e.userId == b)
      = ((batchBeneficiaries rows).filter (fun x => x == b)).map
          (cascadeEntry pid uid rows) := by
  unfold cascadeLedgerEntries
  rw [List.filter_map]
  rfl

/-- `lockedOf` reads the head when it matches. -/
theorem lockedOf_cons_pos (x : WalletAccount) (l : List WalletAccount) (u : Nat)
    (h : (x.userId == u) = true) : lockedOf (x :: l) u = x.lockedCoins := by
  simp [lockedOf, List.find?_cons, h]

/-- `lockedOf` skips a non-matching head. -/
theorem lockedOf_cons_neg (x : WalletAccount) (l : List WalletAccount) (u : Nat)
    (h : ¬((x.userId == u) = true)) : lockedOf (x :: l) u = lockedOf l u := by
  simp [lockedOf, List.find?_cons, h]

/-- `availOf` reads the head when it matches. -/
theorem availOf_cons_pos (x : WalletAccount) (l : List WalletAccount) (u : Nat)
    (h : (x.userId == u) = true) : availOf (x :: l) u = x.availableCoins := by
  simp [availOf, List.find?_cons, h]

/-- `availOf` skips a non-matching head. -/
theorem availOf_cons_neg (x : WalletAccount) (l : List WalletAccount) (u : Nat)
    (h : ¬((x.userId == u) = true)) : availOf (x :: l) u = availOf l u := by
  simp [availOf, List.find?_cons, h]

/-- Adding locked coins to every row of one user raises that user's read-back
by the amount, provided the user has a row. -/
theorem lockedOf_map_addLocked (accounts : List WalletAccount) (b : Nat)
    (amt : Int) (hany : accounts.any (fun a => a.userId == b) = true) :
    lockedOf (accounts.map (fun a =>
        if a.userId = b then { a with lockedCoins := a.lockedCoins + amt } else a)) b
      = lockedOf accounts b + amt := by
  induction accounts with
  | nil => simp at hany
  | cons a as ih =>
    rw [List.map_cons]
    by_cases ha : a.userId = b
    · rw [if_pos ha]
      rw [lockedOf_cons_pos _ _ _ (by simpa using ha),
        lockedOf_cons_pos _ _ _ (by simpa using ha)]
    · rw [if_neg ha]
      have hany' : as.any (fun a => a.userId == b) = true := by
        rw [List.any_cons] at hany
        simpa [ha] using hany
      rw [lockedOf_cons_neg _ _ _ (by simpa using ha),
        lockedOf_cons_neg _ _ _ (by simpa using ha)]
      exact ih hany'

/-- The same map never changes any user's available read-back. -/
theorem availOf_map_addLocked (accounts : List WalletAccount) (b : Nat)
    (amt : Int) (u : Nat) :
    availOf (accounts.map (fun a =>
        if a.userId = b then { a with lockedCoins := a.lockedCoins + amt } else a)) u
      = availOf accounts u := by
  induction accounts with
  | nil => rfl
  | cons a as ih =>
    rw [List.map_cons]
    by_cases ha : a.userId = b
    · rw [if_pos ha]
      by_cases hu : (a.userId == u) = true
      · rw [availOf_cons_pos _ _ _ (by simpa using hu),
          availOf_cons_pos _ _ _ hu]
      · rw [availOf_cons_neg _ _ _ (by simpa using hu),
          availOf_cons_neg _ _ _ hu, ih]
    · rw [if_neg ha]
      by_cases hu : (a.userId == u) = true
      · rw [availOf_cons_pos _ _ _ hu, availOf_cons_pos _ _ _ hu]
      · rw [availOf_cons_neg _ _ _ hu, availOf_cons_neg _ _ _ hu, ih]

/-- The same map never changes another user's locked read-back. -/
theorem lockedOf_map_addLocked_other (accounts : List WalletAccount) (b : Nat)
    (amt : Int) (u : Nat) (hu : u ≠ b) :
    lockedOf (accounts.map (fun a =>
        if a.userId = b then { a with lockedCoins := a.lockedCoins + amt } else a)) u
      = lockedOf accounts u := by
  induction accounts with
  | nil => rfl
  | cons a as ih =>
    rw [List.map_cons]
    by_cases ha : a.userId = b
    · have hnu : ¬((a.userId == u) = true) := by
        simp only [beq_iff_eq]
        intro he
        exact hu (he ▸ ha)
      rw [if_pos ha]
      rw [lockedOf_cons_neg _ _ _ (by simpa using hnu), lockedOf_cons_neg _ _ _ hnu, ih]
    · rw [if_neg ha]
      by_cases hau : (a.userId == u) = true
      · rw [lockedOf_cons_pos _ _ _ hau, lockedOf_cons_pos _ _ _ hau]
      · rw [lockedOf_cons_neg _ _ _ hau, lockedOf_cons_neg _ _ _ hau, ih]

/-- A user with no account row reads back zero locked coins. -/
theorem lockedOf_eq_zero (accounts : List WalletAccount) (b : Nat)
    (hany : accounts.any (fun a => a.userId == b) = false) :
    lockedOf accounts b = 0 := by
  unfold lockedOf
  rw [List.find?_eq_none.mpr]
  intro a ha
  have := List.any_eq_false.mp hany a ha
  simpa using this

/-- A user with no account row reads back zero available coins. -/
theorem availOf_eq_zero (accounts : List WalletAccount) (b : Nat)
    (hany : accounts.any (fun a => a.userId == b) = false) :
    availOf accounts b = 0 := by
  unfold availOf
  rw [List.find?_eq_none.mpr]
  intro a ha
  have := List.any_eq_false.mp hany a ha
  simpa using this

/-- Appending a row for an absent user makes the locked read-back its coins. -/
theorem lockedOf_append_new (accounts : List WalletAccount) (b : Nat) (amt : Int)
    (hany : accounts.any (fun a => a.userId == b) = false) :
    lockedOf (accounts ++ [{ userId := b, availableCoins := 0, lockedCoins := amt }]) b
      = amt := by
  induction accounts with
  | nil =>
    rw [List.nil_append]
    exact lockedOf_cons_pos _ _ _ (by simp)
  | cons a as ih =>
    rw [List.cons_append]
    have hpa := List.any_eq_false.mp hany a (List.mem_cons_self a as)
    have hany' : as.any (fun a => a.userId == b) = false := by
      rw [List.any_cons] at hany
      exact (Bool.or_eq_false_iff.mp hany).2
    rw [lockedOf_cons_neg _ _ _ hpa]
    exact ih hany'

/-- Appending a row for one user leaves every other user's read-backs alone. -/
theorem lockedOf_append_other (accounts : List WalletAccount)
    (x : WalletAccount) (u : Nat) (hu : ¬((x.userId == u) = true)) :
    lockedOf (accounts ++ [x]) u = lockedOf accounts u := by
  induction accounts with
  | nil =>
    rw [List.nil_append]
    rw [lockedOf_cons_neg _ _ _ hu]
  | cons a as ih =>
    rw [List.cons_append]
    by_cases hau : (a.userId == u) = true
    · rw [lockedOf_cons_pos _ _ _ hau, lockedOf_cons_pos _ _ _ hau]
    · rw [lockedOf_cons_neg _ _ _ hau, lockedOf_cons_neg _ _ _ hau, ih]

/-- Appending an account with zero available coins never changes any user's
available read-back. -/
theorem availOf_append_zero (accounts : List WalletAccount) (b : Nat) (amt : Int)
    (u : Nat) :
    availOf (accounts ++ [{ userId := b, availableCoins := 0, lockedCoins := amt }]) u
      = availOf accounts u := by
  induction accounts with
  | nil =>
    rw [List.nil_append]
    by_cases hu : ((({ userId := b, availableCoins := 0, lockedCoins := amt }
        : WalletAccount).userId == u) = true)
    · rw [availOf_cons_pos _ _ _ hu]
      rfl
    · rw [availOf_cons_neg _ _ _ hu]
  | cons a as ih =>
    rw [List.cons_append]
    by_cases hau : (a.userId == u) = true
    · rw [availOf_cons_pos _ _ _ hau, availOf_cons_pos _ _ _ hau]
    · rw [availOf_cons_neg _ _ _ hau, availOf_cons_neg _ _ _ hau, ih]

/-- The upsert raises the target user's locked read-back by the amount,
creating the account at zero when absent. -/
theorem lockedOf_upsertLocked_self (accounts : List WalletAccount) (b : Nat)
    (amt : Int) :
    lockedOf (upsertLocked accounts b amt) b = lockedOf accounts b + amt := by
  unfold upsertLocked
  by_cases hany : accounts.any (fun a => a.userId == b) = true
  · rw [if_pos hany]
    exact lockedOf_map_addLocked accounts b amt hany
  · rw [if_neg hany]
    have hfalse : accounts.any (fun a => a.userId == b) = false := by
      simpa using hany
    rw [lockedOf_append_new accounts b amt hfalse,
      lockedOf_eq_zero accounts b hfalse]
    omega

/-- The upsert never changes another user's locked read-back. -/
theorem lockedOf_upsertLocked_other (accounts : List WalletAccount) (b : Nat)
    (amt : Int) (u : Nat) (hu : u ≠ b) :
    lockedOf (upsertLocked accounts b amt) u = lockedOf accounts u := by
  unfold upsertLocked
  by_cases hany : accounts.any (fun a => a.userId == b) = true
  · rw [if_pos hany]
    exact lockedOf_map_addLocked_other accounts b amt u hu
  · rw [if_neg hany]
    apply lockedOf_append_other
    simp only [beq_iff_eq]
    exact fun h => hu h.symm

/-- The upsert never changes any user's available read-back. -/
theorem availOf_upsertLocked (accounts : List WalletAccount) (b : Nat)
    (amt : Int) (u : Nat) :
    availOf (upsertLocked accounts b amt) u = availOf accounts u := by
  unfold upsertLocked
  by_cases hany : accounts.any (fun a => a.userId == b) = true
  · rw [if_pos hany]
    exact availOf_map_addLocked accounts b amt u
  · rw [if_neg hany]
    exact availOf_append_zero accounts b amt u

/-- Folding upserts over users other than `b` leaves `b` untouched. -/
theorem lockedOf_foldl_upsert_not_mem (f : Nat → Int) (bs : List Nat) (b : Nat) :
    ∀ accounts, b ∉ bs →
      lockedOf (bs.foldl (fun acc x => upsertLocked acc x (f x)) accounts) b
        = lockedOf accounts b := by
  induction bs with
  | nil =>
    intro accounts _
    rfl
  | cons x xs ih =>
    intro accounts hb
    rw [List.foldl_cons]
    rw [ih (upsertLocked accounts x (f x)) (fun h => hb (List.mem_cons_of_mem x h))]
    exact lockedOf_upsertLocked_other accounts x (f x) b
      (fun h => hb (h ▸ List.mem_cons_self x xs))

/-- Folding upserts over a duplicate-free batch raises each member's locked
read-back by exactly its own amount. -/
theorem lockedOf_foldl_upsert_mem (f : Nat → Int) (bs : List Nat) (b : Nat) :
    ∀ accounts, bs.Nodup → b ∈ bs →
      lockedOf (bs.foldl (fun acc x => upsertLocked acc x (f x)) accounts) b
        = lockedOf accounts b + f b := by
  induction bs with
  | nil =>
    intro _ _ h
    cases h
  | cons x xs ih =>
    intro accounts hn hb
    rw [List.foldl_cons]
    rcases List.mem_cons.mp hb with heq | hbx
    · subst heq
      rw [lockedOf_foldl_upsert_not_mem f xs b _ (List.nodup_cons.mp hn).1]
      exact lockedOf_upsertLocked_self accounts b (f b)
    · rw [ih (upsertLocked accounts x (f x)) (List.nodup_cons.mp hn).2 hbx]
      have hbx2 : b ≠ x := fun h => (List.nodup_cons.mp hn).1 (h ▸ hbx)
      rw [lockedOf_upsertLocked_other accounts x (f x) b hbx2]

/-- Folding upserts never changes any available read-back. -/
theorem availOf_foldl_upsert (f : Nat → Int) (bs : List Nat) (u : Nat) :
    ∀ accounts,
      availOf (bs.foldl (fun acc x => upsertLocked acc x (f x)) accounts) u
        = availOf accounts u := by
  induction bs with
  | nil =>
    intro accounts
    rfl
  | cons x xs ih =>
    intro accounts
    rw [List.foldl_cons, ih (upsertLocked accounts x (f x))]
    exact availOf_upsertLocked accounts x (f x) u

/-- C3: during a funding cascade with a fresh batch timestamp the pre-existing
ledger is untouched, and for each distinct beneficiary of the newly funded
commissions exactly one COMMISSION_LOCKED_IN entry is appended whose
`deltaLockedCoins` equals the sum of that beneficiary's newly funded amounts,
while the beneficiary's locked balance rises by exactly the same sum (a
missing account starting from zero) and the available balance stays put — so
the account change equals the ledger delta for every beneficiary in the
batch. -/
theorem claim3_cascade_wallet (s : SettlementState) (pid uid now : Nat)
    (hfresh : ∀ c ∈ s.commissions, c.fundedAt ≠ some now) :
    (fundingCascade pid uid now s).ledger.take s.ledger.length = s.ledger ∧
    ∀ b ∈ batchBeneficiaries (s.commissions.filter (unfundedFor pid uid)),
      (((fundingCascade pid uid now s).ledger.drop s.ledger.length).filter
          (fun e => e.userId == b)).length = 1 ∧
      (∀ e ∈ (fundingCascade pid uid now s).ledger.drop s.ledger.length,
        e.userId = b →
          e.entryType = "COMMISSION_LOCKED_IN" ∧
          e.deltaLockedCoins
            = beneficiarySum (s.commissions.filter (unfundedFor pid uid)) b ∧
          e.deltaAvailableCoins = 0 ∧ e.periodId = pid ∧
          e.refSourceUserId = some uid) ∧
      lockedOf (fundingCascade pid uid now s).accounts b
        = lockedOf s.accounts b
          + beneficiarySum (s.commissions.filter (unfundedFor pid uid)) b ∧
      availOf (fundingCascade pid uid now s).accounts b = availOf s.accounts b := by
  have hrows : fundedAtNow pid uid now
      (s.commissions.map (fundCommissionRow pid uid now))
      = (s.commissions.filter (unfundedFor pid uid)).map
          (fundCommissionRow pid uid now) :=
    fundedAtNow_map_flip pid uid now s.commissions hfresh
  have hledger : (fundingCascade pid uid now s).ledger
      = s.ledger ++ cascadeLedgerEntries pid uid
          ((s.commissions.filter (unfundedFor pid uid)).map
            (fundCommissionRow pid uid now)) := by
    unfold fundingCascade
    dsimp only
    rw [hrows]
  have haccounts : (fundingCascade pid uid now s).accounts
      = cascadeUpsertAccounts s.accounts
          ((s.commissions.filter (unfundedFor pid uid)).map
            (fundCommissionRow pid uid now)) := by
    unfold fundingCascade
    dsimp only
    rw [hrows]
  have hbb : batchBeneficiaries
      ((s.commissions.filter (unfundedFor pid uid)).map
        (fundCommissionRow pid uid now))
      = batchBeneficiaries (s.commissions.filter (unfundedFor pid uid)) :=
    batchBeneficiaries_map_flip pid uid now _
  have hnodup : (batchBeneficiaries
      (s.commissions.filter (unfundedFor pid uid))).Nodup := by
    unfold batchBeneficiaries
    exact List.nodup_dedup _
  constructor
  · rw [hledger]
    exact List.take_left _ _
  · intro b hb
    have hdrop : (fundingCascade pid uid now s).ledger.drop s.ledger.length
        = cascadeLedgerEntries pid uid
            ((s.commissions.filter (unfundedFor pid uid)).map
              (fundCommissionRow pid uid now)) := by
      rw [hledger]
      exact List.drop_left _ _
    refine ⟨?_, ?_, ?_, ?_⟩
    · rw [hdrop, cascadeLedgerEntries_filter, hbb,
        filter_beq_of_nodup hnodup hb]
      simp
    · intro e he heb
      rw [hdrop] at he
      unfold cascadeLedgerEntries at he
      obtain ⟨x, hx, hex⟩ := List.mem_map.mp he
      subst hex
      have hxb : x = b := heb
      subst hxb
      exact ⟨rfl, beneficiarySum_map_flip pid uid now _ x, rfl, rfl, rfl⟩
    · rw [haccounts]
      unfold cascadeUpsertAccounts
      rw [hbb]
      rw [lockedOf_foldl_upsert_mem
        (fun x => beneficiarySum
          ((s.commissions.filter (unfundedFor pid uid)).map
            (fundCommissionRow pid uid now)) x)
        (batchBeneficiaries (s.commissions.filter (unfundedFor pid uid)))
        b s.accounts hnodup hb]
      rw [beneficiarySum_map_flip]
    · rw [haccounts]
      unfold cascadeUpsertAccounts
      rw [hbb]
      exact availOf_foldl_upsert _ _ b s.accounts

/-- Concrete C3 instance: funding source 7's two commissions books 20000 to
beneficiary 21 (existing account, locked 7 → 20007) and 4000 to beneficiary 22
(account created at zero), one ledger entry each. -/
theorem claim3_cascade_wallet_witness :
    (∀ c ∈ cascadeExampleState.commissions, c.fundedAt ≠ some 100) ∧
    ((fundingCascade 1 7 100 cascadeExampleState).ledger.take
        cascadeExampleState.ledger.length = cascadeExampleState.ledger ∧
     ∀ b ∈ batchBeneficiaries
         (cascadeExampleState.commissions.filter (unfundedFor 1 7)),
       (((fundingCascade 1 7 100 cascadeExampleState).ledger.drop
           cascadeExampleState.ledger.length).filter
           (fun e => e.userId == b)).length = 1 ∧
       (∀ e ∈ (fundingCascade 1 7 100 cascadeExampleState).ledger.drop
           cascadeExampleState.ledger.length,
         e.userId = b →
           e.entryType = "COMMISSION_LOCKED_IN" ∧
           e.deltaLockedCoins = beneficiarySum
             (cascadeExampleState.commissions.filter (unfundedFor 1 7)) b ∧
           e.deltaAvailableCoins = 0 ∧ e.periodId = 1 ∧
           e.refSourceUserId = some 7) ∧
       lockedOf (fundingCascade 1 7 100 cascadeExampleState).accounts b
         = lockedOf cascadeExampleState.accounts b
           + beneficiarySum
               (cascadeExampleState.commissions.filter (unfundedFor 1 7)) b ∧
       availOf (fundingCascade 1 7 100 cascadeExampleState).accounts b
         = availOf cascadeExampleState.accounts b) ∧
    (fundingCascade 1 7 100 cascadeExampleState).accounts
      = [⟨21, 5, 20007⟩, ⟨22, 0, 4000⟩] ∧
    (fundingCascade 1 7 100 cascadeExampleState).ledger
      = [⟨21, 1, "COMMISSION_LOCKED_IN", 0, 20000, some 7⟩,
         ⟨22, 1, "COMMISSION_LOCKED_IN", 0, 4000, some 7⟩] :=
  ⟨by decide, claim3_cascade_wallet cascadeExampleState 1 7 100 (by decide),
   by decide, by decide⟩
